import Mathlib

/-!
STM32MP1 platform private helpers (`plat/st/stm32mp1/stm32mp1_private.c`)

A shallow embedding of the identity, security-state, boot-interface and
watchdog-fuse helpers of the STM32MP1 platform port, followed by theorems
about them.

Conventions of the embedding.

* `uint32_t` values are natural numbers; every operation that can leave the
  32-bit range (left shift, addition, subtraction, complement) is wrapped
  explicitly with `u32`.
* Constants, macros and address helpers that come from headers outside this
  translation unit are fields of `PlatformDef`; results are stated for every
  platform definition unless a hypothesis says otherwise.
* External drivers (fuse store, debug-register reader, device tree) are
  arbitrary functions over an abstract driver state, collected in `Drivers`.
* The two function-local `static` variables live in `World`, together with
  the memory-mapped registers and a trace of every external call issued.
* `panic()` is the `Exec.panic` outcome.
-/

namespace Stm32mp1

/-! ## Machine arithmetic -/

/-- Truncation of a natural number to an unsigned 32-bit value. -/
def u32 (n : Nat) : Nat := n % 2 ^ 32

/-- Bitwise complement of a 32-bit value (the C operator `~` on `uint32_t`). -/
def not32 (n : Nat) : Nat := 0xFFFFFFFF ^^^ u32 n

/-- Modelled from the spec: the macro `GENMASK(h, l)` of `utils_def.h` is not in
the sources; the spec gives each field as a bit range `h:l`, so the mask has
exactly the bits `l` to `h` set. -/
def GENMASK (h l : Nat) : Nat := 2 ^ (h + 1) - 2 ^ l

/-- Modelled from the spec: the macro `BIT(nr)` of `utils_def.h` is not in the
sources; the spec speaks of a single bit at a given position, `U(1) << nr` on
32 bits. A position of 32 or more (undefined in C) gives the truncated shift. -/
def BIT (nr : Nat) : Nat := u32 (1 <<< nr)

/-! ## Constants defined in the translation unit -/

def BOARD_ID_BOARD_NB_MASK : Nat := GENMASK 31 16
def BOARD_ID_BOARD_NB_SHIFT : Nat := 16
def BOARD_ID_VARCPN_MASK : Nat := GENMASK 15 12
def BOARD_ID_VARCPN_SHIFT : Nat := 12
def BOARD_ID_REVISION_MASK : Nat := GENMASK 11 8
def BOARD_ID_REVISION_SHIFT : Nat := 8
def BOARD_ID_VARFG_MASK : Nat := GENMASK 7 4
def BOARD_ID_VARFG_SHIFT : Nat := 4
def BOARD_ID_BOM_MASK : Nat := GENMASK 3 0

def BOARD_ID2NB (id : Nat) : Nat := (id &&& BOARD_ID_BOARD_NB_MASK) >>> BOARD_ID_BOARD_NB_SHIFT
def BOARD_ID2VARCPN (id : Nat) : Nat := (id &&& BOARD_ID_VARCPN_MASK) >>> BOARD_ID_VARCPN_SHIFT
def BOARD_ID2REV (id : Nat) : Nat := (id &&& BOARD_ID_REVISION_MASK) >>> BOARD_ID_REVISION_SHIFT
def BOARD_ID2VARFG (id : Nat) : Nat := (id &&& BOARD_ID_VARFG_MASK) >>> BOARD_ID_VARFG_SHIFT
def BOARD_ID2BOM (id : Nat) : Nat := id &&& BOARD_ID_BOM_MASK

def TAMP_BOOT_MODE_BACKUP_REG_ID : Nat := 20
def TAMP_BOOT_MODE_ITF_MASK : Nat := 0x0000FF00
def TAMP_BOOT_MODE_ITF_SHIFT : Nat := 8

/-! ## Platform definitions coming from other headers -/

/-- Constants, build switches and address helpers used by the translation unit
but defined in headers that are not part of it (`platform_def.h`, the BSEC and
IWDG driver headers). -/
structure PlatformDef where
  /-- Build switch `defined(IMAGE_BL2)`. -/
  IMAGE_BL2 : Bool
  BSEC_OK : Nat
  BSEC_ERROR : Nat
  BSEC_LOCK_FAIL : Nat
  DATA0_OTP : Nat
  DATA0_OTP_SECURED : Nat
  PART_NUMBER_OTP : Nat
  PART_NUMBER_OTP_PART_MASK : Nat
  PART_NUMBER_OTP_PART_SHIFT : Nat
  PACKAGE_OTP : Nat
  PACKAGE_OTP_PKG_MASK : Nat
  PACKAGE_OTP_PKG_SHIFT : Nat
  HW2_OTP : Nat
  HW2_OTP_IWDG_HW_POS : Nat
  HW2_OTP_IWDG_FZ_STOP_POS : Nat
  HW2_OTP_IWDG_FZ_STANDBY_POS : Nat
  IWDG_HW_ENABLED : Nat
  IWDG_DISABLE_ON_STOP : Nat
  IWDG_DISABLE_ON_STANDBY : Nat
  STM32MP1_CHIP_ID : Nat
  STM32MP157C_PART_NB : Nat
  STM32MP157A_PART_NB : Nat
  STM32MP153C_PART_NB : Nat
  STM32MP153A_PART_NB : Nat
  STM32MP151C_PART_NB : Nat
  STM32MP151A_PART_NB : Nat
  STM32MP157F_PART_NB : Nat
  STM32MP157D_PART_NB : Nat
  STM32MP153F_PART_NB : Nat
  STM32MP153D_PART_NB : Nat
  STM32MP151F_PART_NB : Nat
  STM32MP151D_PART_NB : Nat
  PKG_AA_LFBGA448 : Nat
  PKG_AB_LFBGA354 : Nat
  PKG_AC_TFBGA361 : Nat
  PKG_AD_TFBGA257 : Nat
  STM32MP1_REV_B : Nat
  STM32MP1_REV_Z : Nat
  STM32_SOC_NAME_SIZE : Nat
  USART1_BASE : Nat
  USART2_BASE : Nat
  USART3_BASE : Nat
  UART4_BASE : Nat
  UART5_BASE : Nat
  USART6_BASE : Nat
  UART7_BASE : Nat
  UART8_BASE : Nat
  IWDG1_BASE : Nat
  IWDG2_BASE : Nat
  IWDG1_INST : Nat
  IWDG2_INST : Nat
  /-- Clock identifier of the RTC APB domain. -/
  RTCAPB : Nat
  /-- Address of a TAMP backup register, `tamp_bkpr(idx)`. -/
  tamp_bkpr : Nat → Nat

/-! ## World: statics, registers and the trace of external calls -/

/-- One call leaving the translation unit. -/
inductive Event where
  | bsec_shadow_register (otp : Nat)
  | bsec_read_otp (otp : Nat)
  | bsec_shadow_read_otp (otp : Nat)
  | bsec_write_otp (val otp : Nat)
  | bsec_write_sr_lock (otp value : Nat)
  | bsec_write_sw_lock (otp value : Nat)
  | dbgmcu_get_chip_version
  | dbgmcu_get_chip_dev_id
  | clk_enable (id : Nat)
  | clk_disable (id : Nat)
  | mmio_read_32 (addr : Nat)
  | mmio_write_32 (addr value : Nat)
  | set_gpio_reset_cfg (bank pin : Nat)
  | log_info (msg : String)
  | log_error (msg : String)
  | notice_cpu (name : List Char)
  | notice_board (nb varcpn varfg : Nat) (rev : Nat) (bom : Nat)
  deriving DecidableEq, Repr

/-- The event is an operation of the fuse store (BSEC driver). -/
def Event.isFuseOp : Event → Bool
  | .bsec_shadow_register _ => true
  | .bsec_read_otp _ => true
  | .bsec_shadow_read_otp _ => true
  | .bsec_write_otp _ _ => true
  | .bsec_write_sr_lock _ _ => true
  | .bsec_write_sw_lock _ _ => true
  | _ => false

/-- The event is a read of a memory-mapped register. -/
def Event.isMmioRead : Event → Bool
  | .mmio_read_32 _ => true
  | _ => false

/-- Program and hardware state seen by the translation unit.
`drv` is the state of the external drivers, `mem` the memory-mapped registers,
`part_number` the static of `get_part_number`, `itf` the static of
`stm32_get_boot_interface`, `trace` the external calls issued so far. -/
structure World (σ : Type) where
  drv : σ
  mem : Nat → Nat
  part_number : Nat
  itf : Nat
  trace : List Event

/-- Outcome of a function that may call `panic()`. -/
inductive Exec (σ α : Type) where
  | ret (v : α) (w : World σ)
  | panic (w : World σ)

/-- Record an external call and the driver state it leaves. -/
def World.call {σ : Type} (w : World σ) (e : Event) (s : σ) : World σ :=
  { w with drv := s, trace := w.trace ++ [e] }

/-- Record an external call that does not touch the driver state. -/
def World.emit {σ : Type} (w : World σ) (e : Event) : World σ :=
  { w with trace := w.trace ++ [e] }

/-- Number of fuse-store operations in a trace. -/
def fuseOps (t : List Event) : Nat := t.countP Event.isFuseOp

/-- Number of register reads in a trace. -/
def mmioReads (t : List Event) : Nat := t.countP Event.isMmioRead

/-! ## Register and clock primitives -/

def clk_enable {σ : Type} (id : Nat) (w : World σ) : World σ :=
  w.emit (Event.clk_enable id)

def clk_disable {σ : Type} (id : Nat) (w : World σ) : World σ :=
  w.emit (Event.clk_disable id)

def mmio_read_32 {σ : Type} (addr : Nat) (w : World σ) : Nat × World σ :=
  (w.mem addr, w.emit (Event.mmio_read_32 addr))

def mmio_write_32 {σ : Type} (addr value : Nat) (w : World σ) : World σ :=
  { w with mem := fun a => if a = addr then value else w.mem a,
           trace := w.trace ++ [Event.mmio_write_32 addr value] }

/-- Modelled from the spec: the inline helper `mmio_clrsetbits_32` of
`lib/mmio.h` is not in the sources; the spec calls it a read-modify-write of
the register: read, clear the `clear` bits, set the `set` bits, write back. -/
def mmio_clrsetbits_32 {σ : Type} (addr clear set : Nat) (w : World σ) : World σ :=
  match mmio_read_32 addr w with
  | (v, w1) => mmio_write_32 addr ((v &&& not32 clear) ||| set) w1

/-! ## UART management -/

def stm32mp1_uart_addresses (P : PlatformDef) : List Nat :=
  [P.USART1_BASE, P.USART2_BASE, P.USART3_BASE, P.UART4_BASE,
   P.UART5_BASE, P.USART6_BASE, P.UART7_BASE, P.UART8_BASE]

/-- The result is `none` when the table would be indexed outside its bounds
(undefined in C), otherwise the address returned. -/
def get_uart_address (P : PlatformDef) (instance_nb : Nat) : Option Nat :=
  if instance_nb = 0 ∨ instance_nb > (stm32mp1_uart_addresses P).length then
    some 0
  else
    (stm32mp1_uart_addresses P)[u32 (instance_nb + (2 ^ 32 - 1))]?

structure gpio_bank_pin_list where
  bank : Nat
  pin : Nat
  deriving DecidableEq, Repr

def gpio_list : List gpio_bank_pin_list :=
  [ { bank := 0, pin := 3 },   -- USART2_RX: GPIOA3
    { bank := 1, pin := 12 },  -- USART3_RX: GPIOB12
    { bank := 1, pin := 2 },   -- UART4_RX: GPIOB2
    { bank := 1, pin := 5 },   -- UART5_RX: GPIOB4
    { bank := 2, pin := 7 },   -- USART6_RX: GPIOC7
    { bank := 5, pin := 6 },   -- UART7_RX: GPIOF6
    { bank := 4, pin := 0 } ]  -- UART8_RX: GPIOE0

/-- The loop over `gpio_list`, one `set_gpio_reset_cfg` call per entry, in
table order. -/
def stm32mp1_deconfigure_uart_pins {σ : Type} (w : World σ) : World σ :=
  gpio_list.foldl (fun w1 e => w1.emit (Event.set_gpio_reset_cfg e.bank e.pin)) w

/-! ## Boot interface recorder -/

def stm32_save_boot_interface {σ : Type} (P : PlatformDef) (interface inst : Nat)
    (w : World σ) : World σ :=
  let bkpr_itf_idx := P.tamp_bkpr TAMP_BOOT_MODE_BACKUP_REG_ID
  let w1 := clk_enable P.RTCAPB w
  let w2 := mmio_clrsetbits_32 bkpr_itf_idx TAMP_BOOT_MODE_ITF_MASK
    (u32 ((u32 (interface <<< 4) ||| (inst &&& 0xF)) <<< TAMP_BOOT_MODE_ITF_SHIFT)) w1
  clk_disable P.RTCAPB w2

/-- Returns `((*interface, *instance), world)`. -/
def stm32_get_boot_interface {σ : Type} (P : PlatformDef) (w : World σ) :
    (Nat × Nat) × World σ :=
  let w3 :=
    if w.itf = 0 then
      let bkpr := P.tamp_bkpr TAMP_BOOT_MODE_BACKUP_REG_ID
      let w1 := clk_enable P.RTCAPB w
      match mmio_read_32 bkpr w1 with
      | (v, w2) =>
        clk_disable P.RTCAPB
          { w2 with itf := (v &&& TAMP_BOOT_MODE_ITF_MASK) >>> TAMP_BOOT_MODE_ITF_SHIFT }
    else w
  ((w3.itf >>> 4, w3.itf &&& 0xF), w3)

/-! ## External drivers -/

/-- Drivers outside the translation unit, as arbitrary functions over a driver
state `σ`. Each fuse-store function returns its status, the word stored through
its pointer argument (when it has one) and the new driver state; the
debug-register readers return their `int` result and the value stored. The
device-tree accessors are read-only. -/
structure Drivers (σ : Type) where
  bsec_shadow_register : Nat → σ → Nat × σ
  bsec_read_otp : Nat → σ → Nat × Nat × σ
  bsec_shadow_read_otp : Nat → σ → Nat × Nat × σ
  bsec_write_otp : Nat → Nat → σ → Nat × σ
  bsec_write_sr_lock : Nat → Nat → σ → Bool × σ
  bsec_write_sw_lock : Nat → Nat → σ → Bool × σ
  stm32mp1_dbgmcu_get_chip_version : σ → Int × Nat × σ
  stm32mp1_dbgmcu_get_chip_dev_id : σ → Int × Nat × σ
  /-- Result of `fdt_get_address(&fdt)`. -/
  fdt_get_address : σ → Int
  /-- Result of `fdt_node_offset_by_compatible(fdt, -1, DT_BSEC_COMPAT)`. -/
  fdt_node_offset_by_compatible : σ → Int
  /-- Result of `fdt_subnode_offset(fdt, bsec_node, "board_id")`. -/
  fdt_subnode_offset : σ → Int → Int
  /-- Result of `fdt_getprop(fdt, node, "reg", NULL)`: `none` for `NULL`,
  otherwise the cell it points to, already converted by `fdt32_to_cpu`. -/
  fdt_getprop : σ → Int → Option Nat

/-! ## Identity resolver -/

def stm32mp_get_chip_version {σ : Type} (D : Drivers σ) (w : World σ) : Nat × World σ :=
  match D.stm32mp1_dbgmcu_get_chip_version w.drv with
  | (rc, version, s) =>
    let w1 := w.call Event.dbgmcu_get_chip_version s
    if rc < 0 then
      (0, w1.emit (Event.log_info "Cannot get CPU version, debug disabled\n"))
    else
      (version, w1)

def stm32mp_get_chip_dev_id {σ : Type} (P : PlatformDef) (D : Drivers σ) (w : World σ) :
    Nat × World σ :=
  match D.stm32mp1_dbgmcu_get_chip_dev_id w.drv with
  | (rc, dev_id, s) =>
    let w1 := w.call Event.dbgmcu_get_chip_dev_id s
    if rc < 0 then
      (P.STM32MP1_CHIP_ID, w1.emit (Event.log_info "Use default chip ID, debug disabled\n"))
    else
      (dev_id, w1)

def get_part_number {σ : Type} (P : PlatformDef) (D : Drivers σ) (w : World σ) :
    Exec σ Nat :=
  if w.part_number ≠ 0 then
    Exec.ret w.part_number w
  else
    match D.bsec_shadow_read_otp P.PART_NUMBER_OTP w.drv with
    | (st, val, s) =>
      let w1 := { w.call (Event.bsec_shadow_read_otp P.PART_NUMBER_OTP) s with
                  part_number := val }
      if st ≠ P.BSEC_OK then
        Exec.panic w1
      else
        let w2 := { w1 with part_number :=
          (w1.part_number &&& P.PART_NUMBER_OTP_PART_MASK) >>> P.PART_NUMBER_OTP_PART_SHIFT }
        match stm32mp_get_chip_dev_id P D w2 with
        | (dev_id, w3) =>
          let w4 := { w3 with part_number := w3.part_number ||| u32 (dev_id <<< 16) }
          Exec.ret w4.part_number w4

def get_cpu_package {σ : Type} (P : PlatformDef) (D : Drivers σ) (w : World σ) :
    Exec σ Nat :=
  match D.bsec_shadow_read_otp P.PACKAGE_OTP w.drv with
  | (st, package, s) =>
    let w1 := w.call (Event.bsec_shadow_read_otp P.PACKAGE_OTP) s
    if st ≠ P.BSEC_OK then
      Exec.panic w1
    else
      Exec.ret ((package &&& P.PACKAGE_OTP_PKG_MASK) >>> P.PACKAGE_OTP_PKG_SHIFT) w1

/-- The switch on the part number in `stm32mp_get_soc_name`. -/
def soc_name_cpu_s (P : PlatformDef) (part_number : Nat) : List Char :=
  if part_number = P.STM32MP157C_PART_NB then "157C".toList
  else if part_number = P.STM32MP157A_PART_NB then "157A".toList
  else if part_number = P.STM32MP153C_PART_NB then "153C".toList
  else if part_number = P.STM32MP153A_PART_NB then "153A".toList
  else if part_number = P.STM32MP151C_PART_NB then "151C".toList
  else if part_number = P.STM32MP151A_PART_NB then "151A".toList
  else if part_number = P.STM32MP157F_PART_NB then "157F".toList
  else if part_number = P.STM32MP157D_PART_NB then "157D".toList
  else if part_number = P.STM32MP153F_PART_NB then "153F".toList
  else if part_number = P.STM32MP153D_PART_NB then "153D".toList
  else if part_number = P.STM32MP151F_PART_NB then "151F".toList
  else if part_number = P.STM32MP151D_PART_NB then "151D".toList
  else "????".toList

/-- The switch on the package in `stm32mp_get_soc_name`. -/
def soc_name_pkg (P : PlatformDef) (package : Nat) : List Char :=
  if package = P.PKG_AA_LFBGA448 then "AA".toList
  else if package = P.PKG_AB_LFBGA354 then "AB".toList
  else if package = P.PKG_AC_TFBGA361 then "AC".toList
  else if package = P.PKG_AD_TFBGA257 then "AD".toList
  else "??".toList

/-- The switch on the chip version in `stm32mp_get_soc_name`. -/
def soc_name_cpu_r (P : PlatformDef) (version : Nat) : List Char :=
  if version = P.STM32MP1_REV_B then "B".toList
  else if version = P.STM32MP1_REV_Z then "Z".toList
  else "?".toList

/-- Modelled from the spec: `snprintf` of the C library is not in the sources;
the spec says the name follows the format template exactly. The call
`snprintf(name, size, "STM32MP%s%s Rev.%s", cpu_s, pkg, cpu_r)` stores the
formatted text cut to `size - 1` characters (and nothing when `size` is 0);
the result is the C string then held by `name`. -/
def snprintf_soc_name (size : Nat) (name cpu_s pkg cpu_r : List Char) : List Char :=
  if size = 0 then name
  else ("STM32MP".toList ++ cpu_s ++ pkg ++ " Rev.".toList ++ cpu_r).take (size - 1)

/-- The argument `name` is the previous content of the buffer; the value
returned is its content after the call. -/
def stm32mp_get_soc_name {σ : Type} (P : PlatformDef) (D : Drivers σ) (name : List Char)
    (w : World σ) : Exec σ (List Char) :=
  match get_part_number P D w with
  | Exec.panic w1 => Exec.panic w1
  | Exec.ret part_number w1 =>
    let cpu_s := soc_name_cpu_s P part_number
    match get_cpu_package P D w1 with
    | Exec.panic w2 => Exec.panic w2
    | Exec.ret package w2 =>
      let pkg := soc_name_pkg P package
      match stm32mp_get_chip_version D w2 with
      | (version, w3) =>
        let cpu_r := soc_name_cpu_r P version
        Exec.ret (snprintf_soc_name P.STM32_SOC_NAME_SIZE name cpu_s pkg cpu_r) w3

def stm32mp_print_cpuinfo {σ : Type} (P : PlatformDef) (D : Drivers σ) (w : World σ) :
    Exec σ Unit :=
  match stm32mp_get_soc_name P D [] w with
  | Exec.panic w1 => Exec.panic w1
  | Exec.ret name w1 => Exec.ret () (w1.emit (Event.notice_cpu name))

def stm32mp_print_boardinfo {σ : Type} (P : PlatformDef) (D : Drivers σ) (w : World σ) :
    Exec σ Unit :=
  if D.fdt_get_address w.drv = 0 then
    Exec.panic w
  else
    let bsec_node := D.fdt_node_offset_by_compatible w.drv
    if bsec_node < 0 then
      Exec.ret () w
    else
      let bsec_board_id_node := D.fdt_subnode_offset w.drv bsec_node
      if bsec_board_id_node ≤ 0 then
        Exec.ret () w
      else
        match D.fdt_getprop w.drv bsec_board_id_node with
        | none => Exec.panic w
        | some cell =>
          let board_otp := cell / 4
          match D.bsec_shadow_read_otp board_otp w.drv with
          | (st, board_id, s) =>
            let w1 := w.call (Event.bsec_shadow_read_otp board_otp) s
            if st ≠ P.BSEC_OK then
              Exec.ret () (w1.emit (Event.log_error "BSEC: PART_NUMBER_OTP Error\n"))
            else if board_id ≠ 0 then
              let rev0 := u32 (u32 (BOARD_ID2REV board_id + (2 ^ 32 - 1)) + 65) % 256
              Exec.ret () (w1.emit (Event.notice_board (BOARD_ID2NB board_id)
                (BOARD_ID2VARCPN board_id) (BOARD_ID2VARFG board_id) rev0
                (BOARD_ID2BOM board_id)))
            else
              Exec.ret () w1

/-- Return true when SoC provides a single Cortex-A7 core, and false otherwise. -/
def stm32mp_is_single_core {σ : Type} (P : PlatformDef) (D : Drivers σ) (w : World σ) :
    Exec σ Bool :=
  match get_part_number P D w with
  | Exec.panic w1 => Exec.panic w1
  | Exec.ret part_number w1 =>
    if part_number = P.STM32MP151A_PART_NB then Exec.ret true w1
    else if part_number = P.STM32MP151C_PART_NB then Exec.ret true w1
    else if part_number = P.STM32MP151D_PART_NB then Exec.ret true w1
    else if part_number = P.STM32MP151F_PART_NB then Exec.ret true w1
    else Exec.ret false w1

/-! ## Security state checker -/

/-- Return true when device is in closed state. -/
def stm32mp_is_closed_device {σ : Type} (P : PlatformDef) (D : Drivers σ) (w : World σ) :
    Bool × World σ :=
  match D.bsec_shadow_register P.DATA0_OTP w.drv with
  | (st1, s1) =>
    let w1 := w.call (Event.bsec_shadow_register P.DATA0_OTP) s1
    if st1 ≠ P.BSEC_OK then
      (true, w1)
    else
      match D.bsec_read_otp P.DATA0_OTP w1.drv with
      | (st2, value, s2) =>
        let w2 := w1.call (Event.bsec_read_otp P.DATA0_OTP) s2
        if st2 ≠ P.BSEC_OK then
          (true, w2)
        else
          (decide ((value &&& P.DATA0_OTP_SECURED) = P.DATA0_OTP_SECURED), w2)

/-! ## Watchdog fuse configuration -/

def stm32_iwdg_get_instance {σ : Type} (P : PlatformDef) (base : Nat) (w : World σ) :
    Exec σ Nat :=
  if base = P.IWDG1_BASE then Exec.ret P.IWDG1_INST w
  else if base = P.IWDG2_BASE then Exec.ret P.IWDG2_INST w
  else Exec.panic w

def stm32_iwdg_get_otp_config {σ : Type} (P : PlatformDef) (D : Drivers σ) (iwdg_inst : Nat)
    (w : World σ) : Exec σ Nat :=
  let iwdg_cfg0 := 0
  let shadowed : Exec σ Unit :=
    if P.IMAGE_BL2 then
      match D.bsec_shadow_register P.HW2_OTP w.drv with
      | (st, s) =>
        let w1 := w.call (Event.bsec_shadow_register P.HW2_OTP) s
        if st ≠ P.BSEC_OK then Exec.panic w1 else Exec.ret () w1
    else Exec.ret () w
  match shadowed with
  | Exec.panic w1 => Exec.panic w1
  | Exec.ret _ w1 =>
    match D.bsec_read_otp P.HW2_OTP w1.drv with
    | (st, otp_value, s) =>
      let w2 := w1.call (Event.bsec_read_otp P.HW2_OTP) s
      if st ≠ P.BSEC_OK then
        Exec.panic w2
      else
        let iwdg_cfg1 :=
          if otp_value &&& BIT (u32 (iwdg_inst + P.HW2_OTP_IWDG_HW_POS)) ≠ 0 then
            iwdg_cfg0 ||| P.IWDG_HW_ENABLED
          else iwdg_cfg0
        let iwdg_cfg2 :=
          if otp_value &&& BIT (u32 (iwdg_inst + P.HW2_OTP_IWDG_FZ_STOP_POS)) ≠ 0 then
            iwdg_cfg1 ||| P.IWDG_DISABLE_ON_STOP
          else iwdg_cfg1
        let iwdg_cfg3 :=
          if otp_value &&& BIT (u32 (iwdg_inst + P.HW2_OTP_IWDG_FZ_STANDBY_POS)) ≠ 0 then
            iwdg_cfg2 ||| P.IWDG_DISABLE_ON_STANDBY
          else iwdg_cfg2
        Exec.ret iwdg_cfg3 w2

/-- Compiled only when `IMAGE_BL2` is defined. -/
def stm32_iwdg_shadow_update {σ : Type} (P : PlatformDef) (D : Drivers σ)
    (iwdg_inst flags : Nat) (w : World σ) : Exec σ Nat :=
  match D.bsec_shadow_read_otp P.HW2_OTP w.drv with
  | (st, otp0, s) =>
    let w1 := w.call (Event.bsec_shadow_read_otp P.HW2_OTP) s
    if st ≠ P.BSEC_OK then
      Exec.panic w1
    else
      let otp1 :=
        if flags &&& P.IWDG_DISABLE_ON_STOP ≠ 0 then
          otp0 ||| BIT (u32 (iwdg_inst + P.HW2_OTP_IWDG_FZ_STOP_POS))
        else otp0
      let otp2 :=
        if flags &&& P.IWDG_DISABLE_ON_STANDBY ≠ 0 then
          otp1 ||| BIT (u32 (iwdg_inst + P.HW2_OTP_IWDG_FZ_STANDBY_POS))
        else otp1
      match D.bsec_write_otp otp2 P.HW2_OTP w1.drv with
      | (result, s2) =>
        let w2 := w1.call (Event.bsec_write_otp otp2 P.HW2_OTP) s2
        if result ≠ P.BSEC_OK then
          Exec.ret result w2
        else
          match D.bsec_write_sr_lock P.HW2_OTP 1 w2.drv with
          | (sr, s3) =>
            let w3 := w2.call (Event.bsec_write_sr_lock P.HW2_OTP 1) s3
            if !sr then
              Exec.ret P.BSEC_LOCK_FAIL w3
            else
              match D.bsec_write_sw_lock P.HW2_OTP 1 w3.drv with
              | (sw, s4) =>
                let w4 := w3.call (Event.bsec_write_sw_lock P.HW2_OTP 1) s4
                if !sw then
                  Exec.ret P.BSEC_LOCK_FAIL w4
                else
                  Exec.ret P.BSEC_OK w4

/-! ## Vocabulary used to state results -/

/-- World reached by an execution, whether it returned or panicked. -/
def Exec.world {σ α : Type} : Exec σ α → World σ
  | Exec.ret _ w => w
  | Exec.panic w => w

/-- The execution called `panic()`. -/
def Exec.panicked {σ α : Type} : Exec σ α → Bool
  | Exec.ret _ _ => false
  | Exec.panic _ => true

/-- Value returned by an execution, when it returned. -/
def Exec.value {σ α : Type} : Exec σ α → Option α
  | Exec.ret v _ => some v
  | Exec.panic _ => none

/-- The event is a board line printed by `stm32mp_print_boardinfo`. -/
def Event.isBoardLine : Event → Bool
  | .notice_board _ _ _ _ _ => true
  | _ => false

/-- Number of board lines in a trace. -/
def boardLines (t : List Event) : Nat := t.countP Event.isBoardLine

/-- The twelve part numbers named by `stm32mp_get_soc_name`. -/
def known_part_numbers (P : PlatformDef) : List Nat :=
  [P.STM32MP157C_PART_NB, P.STM32MP157A_PART_NB, P.STM32MP153C_PART_NB,
   P.STM32MP153A_PART_NB, P.STM32MP151C_PART_NB, P.STM32MP151A_PART_NB,
   P.STM32MP157F_PART_NB, P.STM32MP157D_PART_NB, P.STM32MP153F_PART_NB,
   P.STM32MP153D_PART_NB, P.STM32MP151F_PART_NB, P.STM32MP151D_PART_NB]

/-- The four packages named by `stm32mp_get_soc_name`. -/
def known_packages (P : PlatformDef) : List Nat :=
  [P.PKG_AA_LFBGA448, P.PKG_AB_LFBGA354, P.PKG_AC_TFBGA361, P.PKG_AD_TFBGA257]

/-- The two chip versions named by `stm32mp_get_soc_name`. -/
def known_versions (P : PlatformDef) : List Nat :=
  [P.STM32MP1_REV_B, P.STM32MP1_REV_Z]

/-- Bits of the HW2 fuse word that `flags` asks `stm32_iwdg_shadow_update` to
set for watchdog instance `iwdg_inst`. -/
def iwdg_requested_bits (P : PlatformDef) (iwdg_inst flags : Nat) : Nat :=
  (if flags &&& P.IWDG_DISABLE_ON_STOP ≠ 0 then
     BIT (u32 (iwdg_inst + P.HW2_OTP_IWDG_FZ_STOP_POS)) else 0) |||
  (if flags &&& P.IWDG_DISABLE_ON_STANDBY ≠ 0 then
     BIT (u32 (iwdg_inst + P.HW2_OTP_IWDG_FZ_STANDBY_POS)) else 0)

/-- Answer of the fuse write that `stm32_iwdg_shadow_update` issues when called
in world `w`: the word read OR-ed with the requested bits, written in the
driver state left by the shadow read. -/
def iwdg_write_result {σ : Type} (P : PlatformDef) (D : Drivers σ) (iwdg_inst flags : Nat)
    (w : World σ) : Nat × σ :=
  D.bsec_write_otp
    ((D.bsec_shadow_read_otp P.HW2_OTP w.drv).2.1 ||| iwdg_requested_bits P iwdg_inst flags)
    P.HW2_OTP (D.bsec_shadow_read_otp P.HW2_OTP w.drv).2.2

/-- A fuse store that keeps a word for `HW2_OTP`, observed by `word`: a
successful shadow read returns it and leaves it in place, a successful write
replaces it, and the sticky locks do not alter it. -/
structure KeepsHW2Word {σ : Type} (P : PlatformDef) (D : Drivers σ) (word : σ → Nat) :
    Prop where
  shadow_read : ∀ s, (D.bsec_shadow_read_otp P.HW2_OTP s).1 = P.BSEC_OK →
    (D.bsec_shadow_read_otp P.HW2_OTP s).2.1 = word s ∧
    word (D.bsec_shadow_read_otp P.HW2_OTP s).2.2 = word s
  write : ∀ v s, (D.bsec_write_otp v P.HW2_OTP s).1 = P.BSEC_OK →
    word (D.bsec_write_otp v P.HW2_OTP s).2 = v
  sr_lock : ∀ s, word (D.bsec_write_sr_lock P.HW2_OTP 1 s).2 = word s
  sw_lock : ∀ s, word (D.bsec_write_sw_lock P.HW2_OTP 1 s).2 = word s

/-- Flag set that `stm32_iwdg_get_otp_config` computes from the fuse word once
the fuse accesses have succeeded (the three tests of the function, in order). -/
def iwdg_decode (P : PlatformDef) (iwdg_inst otp_value : Nat) : Nat :=
  let iwdg_cfg1 :=
    if otp_value &&& BIT (u32 (iwdg_inst + P.HW2_OTP_IWDG_HW_POS)) ≠ 0 then
      0 ||| P.IWDG_HW_ENABLED
    else 0
  let iwdg_cfg2 :=
    if otp_value &&& BIT (u32 (iwdg_inst + P.HW2_OTP_IWDG_FZ_STOP_POS)) ≠ 0 then
      iwdg_cfg1 ||| P.IWDG_DISABLE_ON_STOP
    else iwdg_cfg1
  if otp_value &&& BIT (u32 (iwdg_inst + P.HW2_OTP_IWDG_FZ_STANDBY_POS)) ≠ 0 then
    iwdg_cfg2 ||| P.IWDG_DISABLE_ON_STANDBY
  else iwdg_cfg2

/-- Check of a sequence of events against the clock `clk`, started with the
clock enabled `depth` times: every register access happens while the clock is
enabled, no disable comes without an enable, and the sequence ends with the
clock disabled as many times as it was enabled. -/
def clockBracketed (clk : Nat) : Nat → List Event → Bool
  | depth, [] => depth == 0
  | depth, Event.clk_enable id :: t =>
    if id = clk then clockBracketed clk (depth + 1) t else clockBracketed clk depth t
  | depth, Event.clk_disable id :: t =>
    if id = clk then decide (0 < depth) && clockBracketed clk (depth - 1) t
    else clockBracketed clk depth t
  | depth, Event.mmio_read_32 _ :: t => decide (0 < depth) && clockBracketed clk depth t
  | depth, Event.mmio_write_32 _ _ :: t => decide (0 < depth) && clockBracketed clk depth t
  | depth, _ :: t => clockBracketed clk depth t

/-- Number of times a trace enables the clock `clk`. -/
def clkEnables (clk : Nat) (t : List Event) : Nat := t.count (Event.clk_enable clk)

/-- Number of times a trace disables the clock `clk`. -/
def clkDisables (clk : Nat) (t : List Event) : Nat := t.count (Event.clk_disable clk)

/-- The UART RX pins as the comments of `gpio_list` name them, in table order:
GPIOA3, GPIOB12, GPIOB2, GPIOB4, GPIOC7, GPIOF6, GPIOE0, with bank A = 0,
B = 1, C = 2, E = 4, F = 5. -/
def gpio_list_documented : List gpio_bank_pin_list :=
  [ { bank := 0, pin := 3 }, { bank := 1, pin := 12 }, { bank := 1, pin := 2 },
    { bank := 1, pin := 4 }, { bank := 2, pin := 7 }, { bank := 5, pin := 6 },
    { bank := 4, pin := 0 } ]

/-! ## A scripted driver and a reference platform, for concrete runs -/

/-- Modelled from the spec: `platform_def.h` and the BSEC and IWDG driver
headers are not in the sources. This is one assignment of their constants,
with the status codes of the spec (OK, ERROR, LOCK_FAIL) pairwise distinct; it
serves only to run the functions on concrete inputs. -/
def stm32mp1_def : PlatformDef where
  IMAGE_BL2 := true
  BSEC_OK := 0
  BSEC_ERROR := 0xFFFFFFFF
  BSEC_LOCK_FAIL := 0xFFFFFFFA
  DATA0_OTP := 0
  DATA0_OTP_SECURED := BIT 6
  PART_NUMBER_OTP := 1
  PART_NUMBER_OTP_PART_MASK := GENMASK 7 0
  PART_NUMBER_OTP_PART_SHIFT := 0
  PACKAGE_OTP := 16
  PACKAGE_OTP_PKG_MASK := GENMASK 29 27
  PACKAGE_OTP_PKG_SHIFT := 27
  HW2_OTP := 18
  HW2_OTP_IWDG_HW_POS := 3
  HW2_OTP_IWDG_FZ_STOP_POS := 5
  HW2_OTP_IWDG_FZ_STANDBY_POS := 7
  IWDG_HW_ENABLED := BIT 0
  IWDG_DISABLE_ON_STOP := BIT 1
  IWDG_DISABLE_ON_STANDBY := BIT 2
  STM32MP1_CHIP_ID := 0x500
  STM32MP157C_PART_NB := 0x05000000
  STM32MP157A_PART_NB := 0x05000001
  STM32MP153C_PART_NB := 0x05000024
  STM32MP153A_PART_NB := 0x05000025
  STM32MP151C_PART_NB := 0x0500002E
  STM32MP151A_PART_NB := 0x0500002F
  STM32MP157F_PART_NB := 0x05000080
  STM32MP157D_PART_NB := 0x05000081
  STM32MP153F_PART_NB := 0x050000A4
  STM32MP153D_PART_NB := 0x050000A5
  STM32MP151F_PART_NB := 0x050000AE
  STM32MP151D_PART_NB := 0x050000AF
  PKG_AA_LFBGA448 := 4
  PKG_AB_LFBGA354 := 3
  PKG_AC_TFBGA361 := 2
  PKG_AD_TFBGA257 := 1
  STM32MP1_REV_B := 0x2000
  STM32MP1_REV_Z := 0x2001
  STM32_SOC_NAME_SIZE := 20
  USART1_BASE := 0x5C000000
  USART2_BASE := 0x4000E000
  USART3_BASE := 0x4000F000
  UART4_BASE := 0x40010000
  UART5_BASE := 0x40011000
  USART6_BASE := 0x44003000
  UART7_BASE := 0x40018000
  UART8_BASE := 0x40019000
  IWDG1_BASE := 0x5C003000
  IWDG2_BASE := 0x5A002000
  IWDG1_INST := 0
  IWDG2_INST := 1
  RTCAPB := 65
  tamp_bkpr := fun idx => 0x5C00A100 + u32 (idx <<< 2)

/-- State of a scripted set of drivers: the fuse words, the status every fuse
read or shadow operation reports, the status every fuse write reports, the
results of the two sticky locks, of the debug-register readers and of the
device-tree accessors. -/
structure Mock where
  otp : Nat → Nat
  read_status : Nat
  write_status : Nat
  sr_lock_ok : Bool
  sw_lock_ok : Bool
  chip_version : Int × Nat
  chip_dev_id : Int × Nat
  fdt_address : Int
  bsec_node : Int
  board_id_node : Int
  board_id_reg : Option Nat

/-- Scripted drivers over `Mock`; a write that reports `ok` stores the word. -/
def mockDrivers (ok : Nat) : Drivers Mock where
  bsec_shadow_register := fun _ s => (s.read_status, s)
  bsec_read_otp := fun otp s => (s.read_status, s.otp otp, s)
  bsec_shadow_read_otp := fun otp s => (s.read_status, s.otp otp, s)
  bsec_write_otp := fun val otp s =>
    (s.write_status,
      if s.write_status = ok then
        { s with otp := fun i => if i = otp then val else s.otp i }
      else s)
  bsec_write_sr_lock := fun _ _ s => (s.sr_lock_ok, s)
  bsec_write_sw_lock := fun _ _ s => (s.sw_lock_ok, s)
  stm32mp1_dbgmcu_get_chip_version := fun s => (s.chip_version.1, s.chip_version.2, s)
  stm32mp1_dbgmcu_get_chip_dev_id := fun s => (s.chip_dev_id.1, s.chip_dev_id.2, s)
  fdt_get_address := fun s => s.fdt_address
  fdt_node_offset_by_compatible := fun s => s.bsec_node
  fdt_subnode_offset := fun s _ => s.board_id_node
  fdt_getprop := fun s _ => s.board_id_reg

/-- A scripted driver state in which every access succeeds, all fuse words
hold `word`, and the board identifier fuse is found at byte offset `0xEC`. -/
def mockAll (word : Nat) : Mock where
  otp := fun _ => word
  read_status := 0
  write_status := 0
  sr_lock_ok := true
  sw_lock_ok := true
  chip_version := (0, 0x2000)
  chip_dev_id := (0, 0x500)
  fdt_address := 1
  bsec_node := 100
  board_id_node := 120
  board_id_reg := some 0xEC

/-- Initial world over a driver state: empty caches, registers holding `reg`,
empty trace. -/
def World.boot {σ : Type} (s : σ) (reg : Nat) : World σ where
  drv := s
  mem := fun _ => reg
  part_number := 0
  itf := 0
  trace := []

/-- State of a fuse store that honours the sticky write-lock: the HW2 word and
whether writing it has been locked. -/
structure LockedFuse where
  word : Nat
  write_locked : Bool

/-- Drivers over `LockedFuse`: reads always succeed and return the word; a
write succeeds and stores the word while the write-lock is not set, and
reports an error (leaving the word) once it is; the sticky write-lock sets the
lock. -/
def lockingDrivers : Drivers LockedFuse where
  bsec_shadow_register := fun _ s => (0, s)
  bsec_read_otp := fun _ s => (0, s.word, s)
  bsec_shadow_read_otp := fun _ s => (0, s.word, s)
  bsec_write_otp := fun val _ s =>
    if s.write_locked then (0xFFFFFFFF, s) else (0, { s with word := val })
  bsec_write_sr_lock := fun _ _ s => (true, s)
  bsec_write_sw_lock := fun _ _ s => (true, { s with write_locked := true })
  stm32mp1_dbgmcu_get_chip_version := fun s => (0, 0x2000, s)
  stm32mp1_dbgmcu_get_chip_dev_id := fun s => (0, 0x500, s)
  fdt_get_address := fun _ => 1
  fdt_node_offset_by_compatible := fun _ => -1
  fdt_subnode_offset := fun _ _ => -1
  fdt_getprop := fun _ _ => none

/-! ## Results -/

/-! ### Bit-level facts -/

/-- Clearing a field and OR-ing a value in: inside the field only the value
remains. -/
theorem and_clear_or_and (r m f x : Nat) (h : m &&& f = 0) :
    ((r &&& m) ||| x) &&& f = x &&& f := by
  rw [Nat.and_comm, Nat.and_or_distrib_left, Nat.and_comm f (r &&& m), Nat.and_assoc, h,
    Nat.and_zero, Nat.zero_or, Nat.and_comm]

/-! ### Boot interface recorder -/

/-- Packed field written by `stm32_save_boot_interface` for small arguments. -/
theorem save_field_value (interface inst : Nat) (hi : interface < 16) (hn : inst < 16) :
    (u32 ((u32 (interface <<< 4) ||| (inst &&& 0xF)) <<< TAMP_BOOT_MODE_ITF_SHIFT)
      &&& TAMP_BOOT_MODE_ITF_MASK) >>> TAMP_BOOT_MODE_ITF_SHIFT = interface * 16 + inst := by
  interval_cases interface <;> interval_cases inst <;> rfl

/-- Claim C1. Boot-interface round trip: for every interface and instance in
0..15 and every content of the backup register, saving the pair and then
reading it back on a reset cache (`itf = 0`) yields exactly the saved pair. -/
theorem boot_interface_round_trip {σ : Type} (P : PlatformDef) (interface inst : Nat)
    (w : World σ) (hi : interface < 16) (hn : inst < 16) (hc : w.itf = 0) :
    (stm32_get_boot_interface P (stm32_save_boot_interface P interface inst w)).1
      = (interface, inst) := by
  have hm : not32 TAMP_BOOT_MODE_ITF_MASK &&& TAMP_BOOT_MODE_ITF_MASK = 0 := by decide
  have hf := save_field_value interface inst hi hn
  simp only [stm32_get_boot_interface, stm32_save_boot_interface, clk_enable, clk_disable,
    mmio_clrsetbits_32, mmio_read_32, mmio_write_32, World.emit, hc, if_true,
    and_clear_or_and _ _ _ _ hm, hf]
  have h1 : (interface * 16 + inst) >>> 4 = interface := by
    rw [Nat.shiftRight_eq_div_pow]; omega
  have h2 : (interface * 16 + inst) &&& 0xF = inst := by
    have := Nat.and_pow_two_sub_one_eq_mod (interface * 16 + inst) 4
    norm_num at this
    rw [this]; omega
  rw [h1, h2]

/-- Witness for C1: interface 3, instance 2 over a register full of ones. -/
theorem boot_interface_round_trip_witness :
    (stm32_get_boot_interface stm32mp1_def
      (stm32_save_boot_interface stm32mp1_def 3 2
        (World.boot (mockAll 0) 0xFFFFFFFF))).1 = (3, 2) :=
  boot_interface_round_trip stm32mp1_def 3 2 (World.boot (mockAll 0) 0xFFFFFFFF)
    (by decide) (by decide) rfl

/-- Claim C4, as stated, fails: with a backup register whose boot-mode field is
zero the cache stays at its "not yet read" value, so after a save of (1, 2) a
second `stm32_get_boot_interface` reads the hardware again and returns (1, 2)
where the first call returned (0, 0). -/
theorem boot_interface_cache_counterexample :
    (stm32_get_boot_interface stm32mp1_def (World.boot (mockAll 0) 0 : World Mock)).1
      = (0, 0) ∧
    (stm32_get_boot_interface stm32mp1_def
      (stm32_save_boot_interface stm32mp1_def 1 2
        (stm32_get_boot_interface stm32mp1_def (World.boot (mockAll 0) 0 : World Mock)).2)).1
      = (1, 2) ∧
    mmioReads (stm32_get_boot_interface stm32mp1_def
      (stm32_save_boot_interface stm32mp1_def 1 2
        (stm32_get_boot_interface stm32mp1_def
          (World.boot (mockAll 0) 0 : World Mock)).2)).2.trace
      = mmioReads (stm32_save_boot_interface stm32mp1_def 1 2
        (stm32_get_boot_interface stm32mp1_def
          (World.boot (mockAll 0) 0 : World Mock)).2).trace + 1 := by
  decide

/-- Claim C4, amended. When the boot-mode field (bits 15:8) of the backup
register is not zero at the first call of `stm32_get_boot_interface`, that call
performs exactly one hardware read of the register; every later call, in any
world that still holds the cache (whatever the register then contains),
performs no external call at all and returns the same (interface, instance)
pair as the first call. -/
theorem boot_interface_cache_resolves_once {σ : Type} (P : PlatformDef) (w : World σ)
    (hc : w.itf = 0)
    (hf : (w.mem (P.tamp_bkpr TAMP_BOOT_MODE_BACKUP_REG_ID) &&& TAMP_BOOT_MODE_ITF_MASK)
      >>> TAMP_BOOT_MODE_ITF_SHIFT ≠ 0) :
    (stm32_get_boot_interface P w).2.trace =
        w.trace ++ [Event.clk_enable P.RTCAPB,
          Event.mmio_read_32 (P.tamp_bkpr TAMP_BOOT_MODE_BACKUP_REG_ID),
          Event.clk_disable P.RTCAPB] ∧
      mmioReads (stm32_get_boot_interface P w).2.trace = mmioReads w.trace + 1 ∧
      ∀ w2 : World σ, w2.itf = (stm32_get_boot_interface P w).2.itf →
        stm32_get_boot_interface P w2 = ((stm32_get_boot_interface P w).1, w2) := by
  have htr : (stm32_get_boot_interface P w).2.trace =
        w.trace ++ [Event.clk_enable P.RTCAPB,
          Event.mmio_read_32 (P.tamp_bkpr TAMP_BOOT_MODE_BACKUP_REG_ID),
          Event.clk_disable P.RTCAPB] := by
    simp [stm32_get_boot_interface, clk_enable, clk_disable, mmio_read_32, World.emit, hc]
  refine ⟨htr, ?_, ?_⟩
  · rw [htr]
    simp [mmioReads, List.countP_append, List.countP_cons, Event.isMmioRead]
  · intro w2 h2
    have hitf : (stm32_get_boot_interface P w).2.itf =
        (w.mem (P.tamp_bkpr TAMP_BOOT_MODE_BACKUP_REG_ID) &&& TAMP_BOOT_MODE_ITF_MASK)
          >>> TAMP_BOOT_MODE_ITF_SHIFT := by
      simp [stm32_get_boot_interface, clk_enable, clk_disable, mmio_read_32, World.emit, hc]
    have hne : w2.itf ≠ 0 := by rw [h2, hitf]; exact hf
    have hv : (stm32_get_boot_interface P w).1 =
        ((stm32_get_boot_interface P w).2.itf >>> 4,
          (stm32_get_boot_interface P w).2.itf &&& 0xF) := by
      simp [stm32_get_boot_interface]
    rw [hv, ← h2]
    simp [stm32_get_boot_interface, hne]

/-- Witness for the amended C4: register holding 0x1200 (interface 1,
instance 2), read once, then the register is overwritten by a save of (3, 4)
and the second call still answers from the cache. -/
theorem boot_interface_cache_resolves_once_witness :
    mmioReads (stm32_get_boot_interface stm32mp1_def
        (World.boot (mockAll 0) 0x1200 : World Mock)).2.trace =
      mmioReads (World.boot (mockAll 0) 0x1200 : World Mock).trace + 1 ∧
    stm32_get_boot_interface stm32mp1_def
        (stm32_save_boot_interface stm32mp1_def 3 4
          (stm32_get_boot_interface stm32mp1_def (World.boot (mockAll 0) 0x1200)).2) =
      ((stm32_get_boot_interface stm32mp1_def (World.boot (mockAll 0) 0x1200)).1,
        stm32_save_boot_interface stm32mp1_def 3 4
          (stm32_get_boot_interface stm32mp1_def (World.boot (mockAll 0) 0x1200)).2) :=
  ⟨(boot_interface_cache_resolves_once stm32mp1_def (World.boot (mockAll 0) 0x1200) rfl
      (by decide)).2.1,
   (boot_interface_cache_resolves_once stm32mp1_def (World.boot (mockAll 0) 0x1200) rfl
      (by decide)).2.2 _ rfl⟩

/-! ### Security state checker -/

/-- Claim C2. Closed-device fail-safe: for every behaviour of the fuse store,
`stm32mp_is_closed_device` returns true when the shadow of `DATA0_OTP` reports
a status other than `BSEC_OK`, returns true when the shadow succeeds and the
read reports a status other than `BSEC_OK`, and when both succeed with word
`v` returns true exactly when `(v & DATA0_OTP_SECURED) == DATA0_OTP_SECURED`;
hence a false answer is only ever given after two successful accesses. -/
theorem closed_device_fail_safe {σ : Type} (P : PlatformDef) (D : Drivers σ) (w : World σ)
    (st1 st2 v : Nat) (s1 s2 : σ)
    (hshadow : D.bsec_shadow_register P.DATA0_OTP w.drv = (st1, s1))
    (hread : D.bsec_read_otp P.DATA0_OTP s1 = (st2, v, s2)) :
    (st1 ≠ P.BSEC_OK → (stm32mp_is_closed_device P D w).1 = true) ∧
    (st2 ≠ P.BSEC_OK → (stm32mp_is_closed_device P D w).1 = true) ∧
    (st1 = P.BSEC_OK → st2 = P.BSEC_OK →
      ((stm32mp_is_closed_device P D w).1 = true ↔
        v &&& P.DATA0_OTP_SECURED = P.DATA0_OTP_SECURED)) ∧
    ((stm32mp_is_closed_device P D w).1 = false → st1 = P.BSEC_OK ∧ st2 = P.BSEC_OK) := by
  by_cases h1 : st1 = P.BSEC_OK <;> by_cases h2 : st2 = P.BSEC_OK <;>
    simp [stm32mp_is_closed_device, World.call, hshadow, hread, h1, h2]

/-- Witness for C2: a fuse store failing every access makes the device closed,
whatever the fuse word. -/
theorem closed_device_fail_safe_witness :
    (stm32mp_is_closed_device stm32mp1_def (mockDrivers 0)
      (World.boot { mockAll 0 with read_status := 0xFFFFFFFF } 0)).1 = true :=
  (closed_device_fail_safe stm32mp1_def (mockDrivers 0)
    (World.boot { mockAll 0 with read_status := 0xFFFFFFFF } 0)
    0xFFFFFFFF 0xFFFFFFFF 0 _ _ rfl rfl).1 (by decide)

/-! ### Identity resolver -/

/-- The debug-register reader behind `stm32mp_get_chip_dev_id` leaves the
caches and registers alone and issues no fuse-store operation. -/
theorem chip_dev_id_frame {σ : Type} (P : PlatformDef) (D : Drivers σ) (w : World σ) :
    (stm32mp_get_chip_dev_id P D w).2.part_number = w.part_number ∧
    (stm32mp_get_chip_dev_id P D w).2.itf = w.itf ∧
    (stm32mp_get_chip_dev_id P D w).2.mem = w.mem ∧
    fuseOps (stm32mp_get_chip_dev_id P D w).2.trace = fuseOps w.trace := by
  unfold stm32mp_get_chip_dev_id
  rcases hd : D.stm32mp1_dbgmcu_get_chip_dev_id w.drv with ⟨rc, dev_id, s⟩
  by_cases hrc : rc < 0 <;>
    simp [hrc, World.call, World.emit, fuseOps, List.countP_append, List.countP_cons,
      Event.isFuseOp]

/-- A returning `get_part_number` leaves its result in the cache and has issued
at most one fuse-store operation. -/
theorem get_part_number_ret {σ : Type} (P : PlatformDef) (D : Drivers σ)
    (w w1 : World σ) (v : Nat) (h : get_part_number P D w = Exec.ret v w1) :
    w1.part_number = v ∧ fuseOps w1.trace ≤ fuseOps w.trace + 1 := by
  by_cases hc : w.part_number = 0
  · rcases hr : D.bsec_shadow_read_otp P.PART_NUMBER_OTP w.drv with ⟨st, val, s⟩
    by_cases hst : st = P.BSEC_OK
    · simp only [get_part_number, hc, hr, hst, ne_eq, not_true_eq_false, if_false,
        Exec.ret.injEq] at h
      obtain ⟨h1, h2⟩ := h
      subst h2
      refine ⟨h1, ?_⟩
      simp only []
      rw [(chip_dev_id_frame P D _).2.2.2]
      simp [World.call, fuseOps, List.countP_append, List.countP_cons, Event.isFuseOp]
    · simp [get_part_number, hc, hr, hst] at h
  · simp only [get_part_number, ne_eq, hc, not_false_eq_true, if_true, Exec.ret.injEq] at h
    obtain ⟨h1, h2⟩ := h
    subst h2
    exact ⟨h1, by omega⟩

/-- With a non-zero cache `get_part_number` answers from the cache and leaves
the world untouched. -/
theorem get_part_number_cached {σ : Type} (P : PlatformDef) (D : Drivers σ) (w : World σ)
    (h : w.part_number ≠ 0) : get_part_number P D w = Exec.ret w.part_number w := by
  simp [get_part_number, h]

/-- Claim C3, as stated, fails: with a zero part field in the fuse word and a
chip device id of zero the computed part number is 0, which is also the
"not cached" value, so a second call of `get_part_number` shadow-reads the
fuse again (two fuse-store operations over two calls). -/
theorem part_number_cache_counterexample :
    (get_part_number stm32mp1_def (mockDrivers 0)
      (World.boot { mockAll 0 with chip_dev_id := (0, 0) } 0)).value = some 0 ∧
    fuseOps (get_part_number stm32mp1_def (mockDrivers 0)
      (get_part_number stm32mp1_def (mockDrivers 0)
        (World.boot { mockAll 0 with chip_dev_id := (0, 0) } 0)).world).world.trace = 2 := by
  decide

/-- Claim C3, amended. For every fuse store and debug-register reader, once a
call of `get_part_number` has returned a non-zero value, that call has issued
at most one fuse-store operation, and every later call, in any world that
still holds the cache, returns the identical value and leaves the world
unchanged (no fuse-store operation, no other external call). -/
theorem part_number_cached_after_first_call {σ : Type} (P : PlatformDef) (D : Drivers σ)
    (w w1 : World σ) (v : Nat)
    (h1 : get_part_number P D w = Exec.ret v w1) (hv : v ≠ 0) :
    fuseOps w1.trace ≤ fuseOps w.trace + 1 ∧
    ∀ w2 : World σ, w2.part_number = w1.part_number →
      get_part_number P D w2 = Exec.ret v w2 := by
  refine ⟨(get_part_number_ret P D w w1 v h1).2, ?_⟩
  intro w2 h2
  have hc := (get_part_number_ret P D w w1 v h1).1
  have hne : w2.part_number ≠ 0 := by rw [h2, hc]; exact hv
  rw [get_part_number_cached P D w2 hne, h2, hc]

/-- Witness for the amended C3: fuse word 0x2F and chip id 0x500 give the part
number 0x0500002F, answered from the cache by a second call on the world the
first call left. -/
theorem part_number_cached_after_first_call_witness :
    fuseOps (get_part_number stm32mp1_def (mockDrivers 0)
        (World.boot (mockAll 0x2F) 0)).world.trace ≤
      fuseOps (World.boot (mockAll 0x2F) 0 : World Mock).trace + 1 ∧
    get_part_number stm32mp1_def (mockDrivers 0)
        (get_part_number stm32mp1_def (mockDrivers 0) (World.boot (mockAll 0x2F) 0)).world =
      Exec.ret 0x0500002F
        (get_part_number stm32mp1_def (mockDrivers 0) (World.boot (mockAll 0x2F) 0)).world :=
  ⟨(part_number_cached_after_first_call stm32mp1_def (mockDrivers 0)
      (World.boot (mockAll 0x2F) 0)
      (get_part_number stm32mp1_def (mockDrivers 0) (World.boot (mockAll 0x2F) 0)).world
      0x0500002F rfl (by decide)).1,
   (part_number_cached_after_first_call stm32mp1_def (mockDrivers 0)
      (World.boot (mockAll 0x2F) 0)
      (get_part_number stm32mp1_def (mockDrivers 0) (World.boot (mockAll 0x2F) 0)).world
      0x0500002F rfl (by decide)).2 _ rfl⟩

/-- Claim C8, as stated, fails: in the state where the part number is not yet
cached, `stm32mp_is_single_core` shadow-reads the part-number fuse (one
fuse-store operation when the store answers) and panics when the store
reports an error. -/
theorem is_single_core_counterexample :
    (stm32mp_is_single_core stm32mp1_def (mockDrivers 0)
      (World.boot { mockAll 0x2F with read_status := 0xFFFFFFFF } 0)).panicked = true ∧
    fuseOps (stm32mp_is_single_core stm32mp1_def (mockDrivers 0)
      (World.boot (mockAll 0x2F) 0)).world.trace = 1 := by
  decide

/-- Claim C8, amended. In every state in which the part number is already
cached (non-zero), and for every fuse-store behaviour, a call of
`stm32mp_is_single_core` performs no fuse-store operation (the world is left
unchanged) and never panics; it returns true exactly when the part number is
one of STM32MP151A, 151C, 151D, 151F. -/
theorem is_single_core_cached {σ : Type} (P : PlatformDef) (D : Drivers σ) (w : World σ)
    (h : w.part_number ≠ 0) :
    stm32mp_is_single_core P D w =
      Exec.ret (decide (w.part_number = P.STM32MP151A_PART_NB ∨
        w.part_number = P.STM32MP151C_PART_NB ∨ w.part_number = P.STM32MP151D_PART_NB ∨
        w.part_number = P.STM32MP151F_PART_NB)) w := by
  unfold stm32mp_is_single_core
  rw [get_part_number_cached P D w h]
  by_cases hA : w.part_number = P.STM32MP151A_PART_NB
  · simp [hA]
  by_cases hC : w.part_number = P.STM32MP151C_PART_NB
  · simp [hC]
  by_cases hD : w.part_number = P.STM32MP151D_PART_NB
  · simp [hD]
  by_cases hF : w.part_number = P.STM32MP151F_PART_NB
  · simp [hF]
  simp [hA, hC, hD, hF]

/-- Witness for the amended C8: a cached STM32MP151D part number is single
core, whatever the fuse store would answer. -/
theorem is_single_core_cached_witness :
    stm32mp_is_single_core stm32mp1_def (mockDrivers 0)
        { World.boot { mockAll 0 with read_status := 0xFFFFFFFF } 0 with
          part_number := 0x050000AF } =
      Exec.ret true
        { World.boot { mockAll 0 with read_status := 0xFFFFFFFF } 0 with
          part_number := 0x050000AF } :=
  is_single_core_cached stm32mp1_def (mockDrivers 0)
    { World.boot { mockAll 0 with read_status := 0xFFFFFFFF } 0 with
      part_number := 0x050000AF } (by decide)

/-! ### Watchdog fuse configuration -/

/-- A bitwise OR is non-zero exactly when one side is. -/
theorem or_ne_zero_iff (a b : Nat) : a ||| b ≠ 0 ↔ a ≠ 0 ∨ b ≠ 0 := by
  constructor
  · intro h
    by_contra hc
    push_neg at hc
    exact h (by rw [hc.1, hc.2]; rfl)
  · rintro (h | h) hc
    · apply h
      apply Nat.eq_of_testBit_eq
      intro k
      have := congrArg (fun x => Nat.testBit x k) hc
      simp only [Nat.testBit_or, Nat.zero_testBit, Bool.or_eq_false_iff] at this
      simp [this.1]
    · apply h
      apply Nat.eq_of_testBit_eq
      intro k
      have := congrArg (fun x => Nat.testBit x k) hc
      simp only [Nat.testBit_or, Nat.zero_testBit, Bool.or_eq_false_iff] at this
      simp [this.2]

/-- A word is a bitwise subset of its OR with anything. -/
theorem and_or_self_left (a b : Nat) : a &&& (a ||| b) = a := by
  apply Nat.eq_of_testBit_eq
  intro k
  simp only [Nat.testBit_and, Nat.testBit_or]
  cases a.testBit k <;> simp

/-- The bits requested by a union of flag sets are the union of the bits
requested by each. -/
theorem iwdg_requested_bits_or (P : PlatformDef) (i f1 f2 : Nat) :
    iwdg_requested_bits P i (f1 ||| f2) =
      iwdg_requested_bits P i f1 ||| iwdg_requested_bits P i f2 := by
  have key : ∀ m : Nat, ((f1 ||| f2) &&& m = 0) ↔ (f1 &&& m = 0 ∧ f2 &&& m = 0) := by
    intro m
    have := or_ne_zero_iff (f1 &&& m) (f2 &&& m)
    rw [Nat.and_comm, Nat.and_or_distrib_left, Nat.and_comm m f1, Nat.and_comm m f2]
    constructor
    · intro h
      by_contra hc
      exact (this.2 (by tauto)) h
    · rintro ⟨h1, h2⟩
      rw [h1, h2]; rfl
  apply Nat.eq_of_testBit_eq
  intro k
  unfold iwdg_requested_bits
  by_cases a1 : f1 &&& P.IWDG_DISABLE_ON_STOP = 0 <;>
  by_cases a2 : f2 &&& P.IWDG_DISABLE_ON_STOP = 0 <;>
  by_cases b1 : f1 &&& P.IWDG_DISABLE_ON_STANDBY = 0 <;>
  by_cases b2 : f2 &&& P.IWDG_DISABLE_ON_STANDBY = 0 <;>
  · simp only [key, ne_eq, a1, a2, b1, b2, and_self, and_true, true_and, and_false, false_and,
      not_true_eq_false, not_false_eq_true, if_true,
      if_false, Nat.testBit_or, Nat.zero_testBit, Bool.or_false, Bool.false_or]
    try (cases (BIT (u32 (i + P.HW2_OTP_IWDG_FZ_STOP_POS))).testBit k <;>
      cases (BIT (u32 (i + P.HW2_OTP_IWDG_FZ_STANDBY_POS))).testBit k <;> rfl)
/-- The word computed by `stm32_iwdg_shadow_update` is the word read OR-ed with
the requested bits. -/
theorem iwdg_update_word_eq (P : PlatformDef) (i flags otp0 : Nat) :
    (if flags &&& P.IWDG_DISABLE_ON_STANDBY ≠ 0 then
        (if flags &&& P.IWDG_DISABLE_ON_STOP ≠ 0 then
            otp0 ||| BIT (u32 (i + P.HW2_OTP_IWDG_FZ_STOP_POS))
          else otp0) ||| BIT (u32 (i + P.HW2_OTP_IWDG_FZ_STANDBY_POS))
      else
        (if flags &&& P.IWDG_DISABLE_ON_STOP ≠ 0 then
            otp0 ||| BIT (u32 (i + P.HW2_OTP_IWDG_FZ_STOP_POS))
          else otp0)) = otp0 ||| iwdg_requested_bits P i flags := by
  unfold iwdg_requested_bits
  by_cases a : flags &&& P.IWDG_DISABLE_ON_STOP = 0 <;>
  by_cases b : flags &&& P.IWDG_DISABLE_ON_STANDBY = 0 <;>
  simp [a, b, Nat.or_assoc]

/-- Run of `stm32_iwdg_shadow_update` in terms of the answers of the four
fuse-store calls it can make. -/
theorem iwdg_shadow_update_run {σ : Type} (P : PlatformDef) (D : Drivers σ)
    (i flags : Nat) (w : World σ) (st otp0 result : Nat) (sr sw : Bool) (s1 s2 s3 s4 : σ)
    (hread : D.bsec_shadow_read_otp P.HW2_OTP w.drv = (st, otp0, s1))
    (hwrite : D.bsec_write_otp (otp0 ||| iwdg_requested_bits P i flags) P.HW2_OTP s1
      = (result, s2))
    (hsr : D.bsec_write_sr_lock P.HW2_OTP 1 s2 = (sr, s3))
    (hsw : D.bsec_write_sw_lock P.HW2_OTP 1 s3 = (sw, s4)) :
    stm32_iwdg_shadow_update P D i flags w =
      if st ≠ P.BSEC_OK then
        Exec.panic (w.call (Event.bsec_shadow_read_otp P.HW2_OTP) s1)
      else if result ≠ P.BSEC_OK then
        Exec.ret result
          ((w.call (Event.bsec_shadow_read_otp P.HW2_OTP) s1).call
            (Event.bsec_write_otp (otp0 ||| iwdg_requested_bits P i flags) P.HW2_OTP) s2)
      else if sr = false then
        Exec.ret P.BSEC_LOCK_FAIL
          (((w.call (Event.bsec_shadow_read_otp P.HW2_OTP) s1).call
            (Event.bsec_write_otp (otp0 ||| iwdg_requested_bits P i flags) P.HW2_OTP) s2).call
            (Event.bsec_write_sr_lock P.HW2_OTP 1) s3)
      else if sw = false then
        Exec.ret P.BSEC_LOCK_FAIL
          ((((w.call (Event.bsec_shadow_read_otp P.HW2_OTP) s1).call
            (Event.bsec_write_otp (otp0 ||| iwdg_requested_bits P i flags) P.HW2_OTP) s2).call
            (Event.bsec_write_sr_lock P.HW2_OTP 1) s3).call
            (Event.bsec_write_sw_lock P.HW2_OTP 1) s4)
      else
        Exec.ret P.BSEC_OK
          ((((w.call (Event.bsec_shadow_read_otp P.HW2_OTP) s1).call
            (Event.bsec_write_otp (otp0 ||| iwdg_requested_bits P i flags) P.HW2_OTP) s2).call
            (Event.bsec_write_sr_lock P.HW2_OTP 1) s3).call
            (Event.bsec_write_sw_lock P.HW2_OTP 1) s4) := by
  unfold stm32_iwdg_shadow_update
  simp only [hread]
  by_cases h0 : st = P.BSEC_OK
  · simp only [h0, ne_eq, not_true_eq_false, if_false]
    rw [iwdg_update_word_eq]
    have e1 : (w.call (Event.bsec_shadow_read_otp P.HW2_OTP) s1).drv = s1 := rfl
    simp only [e1, hwrite]
    by_cases h1 : result = P.BSEC_OK
    · have e2 : ((w.call (Event.bsec_shadow_read_otp P.HW2_OTP) s1).call
          (Event.bsec_write_otp (otp0 ||| iwdg_requested_bits P i flags) P.HW2_OTP) s2).drv
          = s2 := rfl
      simp only [h1, not_true_eq_false, if_false, e2, hsr]
      cases sr
      · simp
      · have e3 : (((w.call (Event.bsec_shadow_read_otp P.HW2_OTP) s1).call
          (Event.bsec_write_otp (otp0 ||| iwdg_requested_bits P i flags) P.HW2_OTP) s2).call
          (Event.bsec_write_sr_lock P.HW2_OTP 1) s3).drv = s3 := rfl
        simp only [e3, hsw]
        cases sw <;> simp
    · simp [h1]
  · simp [h0]

/-- A call of `stm32_iwdg_shadow_update` whose shadow read and write succeed,
over a store keeping the HW2 word, returns, has written the word it read OR-ed
with the requested bits, and leaves that word in the store, whatever the
sticky locks answer. -/
theorem iwdg_shadow_update_word {σ : Type} (P : PlatformDef) (D : Drivers σ)
    (word : σ → Nat) (hK : KeepsHW2Word P D word) (i flags : Nat) (w : World σ)
    (hr : (D.bsec_shadow_read_otp P.HW2_OTP w.drv).1 = P.BSEC_OK)
    (hw : (iwdg_write_result P D i flags w).1 = P.BSEC_OK) :
    (stm32_iwdg_shadow_update P D i flags w).panicked = false ∧
    word (stm32_iwdg_shadow_update P D i flags w).world.drv =
      word w.drv ||| iwdg_requested_bits P i flags ∧
    ∃ rest, (stm32_iwdg_shadow_update P D i flags w).world.trace =
      w.trace ++ Event.bsec_shadow_read_otp P.HW2_OTP ::
        Event.bsec_write_otp (word w.drv ||| iwdg_requested_bits P i flags) P.HW2_OTP ::
        rest := by
  have kr := hK.shadow_read w.drv hr
  unfold iwdg_write_result at hw
  rcases hread : D.bsec_shadow_read_otp P.HW2_OTP w.drv with ⟨st, otp0, s1⟩
  rw [hread] at hr hw kr
  simp only at hr hw kr
  rcases hwrite : D.bsec_write_otp (otp0 ||| iwdg_requested_bits P i flags) P.HW2_OTP s1
    with ⟨result, s2⟩
  rcases hsr : D.bsec_write_sr_lock P.HW2_OTP 1 s2 with ⟨sr, s3⟩
  rcases hsw : D.bsec_write_sw_lock P.HW2_OTP 1 s3 with ⟨sw, s4⟩
  rw [iwdg_shadow_update_run P D i flags w st otp0 result sr sw s1 s2 s3 s4 hread hwrite hsr
    hsw]
  have kw := hK.write (otp0 ||| iwdg_requested_bits P i flags) s1
  have ksr := hK.sr_lock s2
  have ksw := hK.sw_lock s3
  rw [hwrite] at hw kw
  rw [hsr] at ksr
  rw [hsw] at ksw
  simp only at hw kw ksr ksw
  have hw2 := kw hw
  have hotp := kr.1
  subst hotp
  simp only [hr, hw, ne_eq, not_true_eq_false, if_false]
  cases sr
  · simp only [if_true, Exec.panicked, Exec.world, World.call, true_and]
    exact ⟨by rw [ksr, hw2], [Event.bsec_write_sr_lock P.HW2_OTP 1], by simp⟩
  · cases sw
    · simp only [Bool.true_eq_false, if_false, if_true, Exec.panicked, Exec.world, World.call,
        true_and]
      exact ⟨by rw [ksw, ksr, hw2],
        [Event.bsec_write_sr_lock P.HW2_OTP 1, Event.bsec_write_sw_lock P.HW2_OTP 1],
        by simp⟩
    · simp only [Bool.true_eq_false, if_false, Exec.panicked, Exec.world, World.call,
        true_and]
      exact ⟨by rw [ksw, ksr, hw2],
        [Event.bsec_write_sr_lock P.HW2_OTP 1, Event.bsec_write_sw_lock P.HW2_OTP 1],
        by simp⟩

/-- The store honouring the sticky write-lock keeps the HW2 word: it is a store
in which a successful write makes the next shadow read return the word
written. -/
theorem lockingDrivers_keeps_word :
    KeepsHW2Word stm32mp1_def lockingDrivers (fun s => s.word) where
  shadow_read := by intro s _; exact ⟨rfl, rfl⟩
  write := by
    intro v s h
    cases hl : s.write_locked
    · simp [lockingDrivers, hl]
    · simp [lockingDrivers, hl, stm32mp1_def] at h
  sr_lock := by intro s; rfl
  sw_lock := by intro s; rfl

/-- Claim C5, as stated, fails: over a fuse store in which a successful write
makes the next shadow read return the word written, and which honours the
sticky write-lock, a first `stm32_iwdg_shadow_update(0, disable-on-stop)` on
the word 0x8 returns `BSEC_OK`, leaves 0x28 and locks the word; the second
update, with the disjoint flag disable-on-standby, has its write refused,
returns the error status and leaves the word at 0x28, not at 0xA8, the word
with the bits of both flag sets. -/
theorem iwdg_shadow_update_accumulates_counterexample :
    KeepsHW2Word stm32mp1_def lockingDrivers (fun s => s.word) ∧
    2 &&& 4 = 0 ∧
    (stm32_iwdg_shadow_update stm32mp1_def lockingDrivers 0 2
      (World.boot { word := 0x8, write_locked := false } 0)).value = some 0 ∧
    (stm32_iwdg_shadow_update stm32mp1_def lockingDrivers 0 2
      (World.boot { word := 0x8, write_locked := false } 0)).world.drv.word = 0x28 ∧
    (stm32_iwdg_shadow_update stm32mp1_def lockingDrivers 0 4
      (stm32_iwdg_shadow_update stm32mp1_def lockingDrivers 0 2
        (World.boot { word := 0x8, write_locked := false } 0)).world).value
      = some 0xFFFFFFFF ∧
    (stm32_iwdg_shadow_update stm32mp1_def lockingDrivers 0 4
      (stm32_iwdg_shadow_update stm32mp1_def lockingDrivers 0 2
        (World.boot { word := 0x8, write_locked := false } 0)).world).world.drv.word
      = 0x28 ∧
    0x8 ||| iwdg_requested_bits stm32mp1_def 0 (2 ||| 4) = 0xA8 :=
  ⟨lockingDrivers_keeps_word, by decide, by decide, by decide, by decide, by decide,
    by decide⟩

/-- Claim C5, amended. Watchdog fuse monotonic accumulation: over a fuse store
that keeps the HW2 word (a successful write makes the next shadow read return
the word written), for every initial word, instance and flag sets `f1`, `f2`
(in particular disjoint ones), two runs of `stm32_iwdg_shadow_update` whose
shadow reads and writes succeed both return and leave the word equal to the initial
word OR-ed with the stop/standby bits requested by the union of `f1` and `f2`;
each call writes the word it read OR-ed with the bits it was asked for, a
bitwise superset of what it read, so every bit of the initial word is still
set. -/
theorem iwdg_shadow_update_accumulates {σ : Type} (P : PlatformDef) (D : Drivers σ)
    (word : σ → Nat) (hK : KeepsHW2Word P D word) (i f1 f2 : Nat) (w : World σ)
    (hr1 : (D.bsec_shadow_read_otp P.HW2_OTP w.drv).1 = P.BSEC_OK)
    (hw1 : (iwdg_write_result P D i f1 w).1 = P.BSEC_OK)
    (hr2 : (D.bsec_shadow_read_otp P.HW2_OTP
      (stm32_iwdg_shadow_update P D i f1 w).world.drv).1 = P.BSEC_OK)
    (hw2 : (iwdg_write_result P D i f2 (stm32_iwdg_shadow_update P D i f1 w).world).1
      = P.BSEC_OK) :
    (stm32_iwdg_shadow_update P D i f1 w).panicked = false ∧
    (stm32_iwdg_shadow_update P D i f2
      (stm32_iwdg_shadow_update P D i f1 w).world).panicked = false ∧
    word (stm32_iwdg_shadow_update P D i f2
        (stm32_iwdg_shadow_update P D i f1 w).world).world.drv =
      word w.drv ||| iwdg_requested_bits P i (f1 ||| f2) ∧
    word w.drv &&& word (stm32_iwdg_shadow_update P D i f1 w).world.drv = word w.drv ∧
    word w.drv &&& word (stm32_iwdg_shadow_update P D i f2
        (stm32_iwdg_shadow_update P D i f1 w).world).world.drv = word w.drv ∧
    (∃ rest, (stm32_iwdg_shadow_update P D i f1 w).world.trace =
      w.trace ++ Event.bsec_shadow_read_otp P.HW2_OTP ::
        Event.bsec_write_otp (word w.drv ||| iwdg_requested_bits P i f1) P.HW2_OTP :: rest) ∧
    (∃ rest, (stm32_iwdg_shadow_update P D i f2
        (stm32_iwdg_shadow_update P D i f1 w).world).world.trace =
      (stm32_iwdg_shadow_update P D i f1 w).world.trace ++
        Event.bsec_shadow_read_otp P.HW2_OTP ::
        Event.bsec_write_otp ((word w.drv ||| iwdg_requested_bits P i f1) |||
          iwdg_requested_bits P i f2) P.HW2_OTP :: rest) := by
  obtain ⟨pa, ea, ta⟩ := iwdg_shadow_update_word P D word hK i f1 w hr1 hw1
  obtain ⟨pb, eb, tb⟩ := iwdg_shadow_update_word P D word hK i f2 _ hr2 hw2
  have hfin : word (stm32_iwdg_shadow_update P D i f2
        (stm32_iwdg_shadow_update P D i f1 w).world).world.drv =
      word w.drv ||| iwdg_requested_bits P i (f1 ||| f2) := by
    rw [eb, ea, iwdg_requested_bits_or, Nat.or_assoc]
  rw [ea] at tb
  refine ⟨pa, pb, hfin, ?_, ?_, ta, tb⟩
  · rw [ea]; exact and_or_self_left _ _
  · rw [hfin]; exact and_or_self_left _ _

/-- The scripted drivers keep the HW2 word. -/
theorem mockDrivers_keeps_word :
    KeepsHW2Word stm32mp1_def (mockDrivers 0) (fun s => s.otp 18) where
  shadow_read := by intro s _; exact ⟨rfl, rfl⟩
  write := by
    intro v s h
    have h0 : s.write_status = 0 := h
    simp [mockDrivers, h0, stm32mp1_def]
  sr_lock := by intro s; rfl
  sw_lock := by intro s; rfl

/-- Witness for the amended C5: on watchdog instance 0, starting from the word 0x8, a
request for disable-on-stop followed by a request for disable-on-standby
leaves 0x8 with bits 5 and 7 added, although the sticky write-lock fails. -/
theorem iwdg_shadow_update_accumulates_witness :
    (stm32_iwdg_shadow_update stm32mp1_def (mockDrivers 0) 0 4
      (stm32_iwdg_shadow_update stm32mp1_def (mockDrivers 0) 0 2
        (World.boot { mockAll 0x8 with sw_lock_ok := false } 0)).world).world.drv.otp 18
      = 0xA8 :=
  (iwdg_shadow_update_accumulates stm32mp1_def (mockDrivers 0) (fun s => s.otp 18)
    mockDrivers_keeps_word 0 2 4 (World.boot { mockAll 0x8 with sw_lock_ok := false } 0)
    rfl rfl rfl rfl).2.2.1

/-- Claim C6. Lock-after-write status: when the shadow read succeeds,
`stm32_iwdg_shadow_update` returns (i) the status of the write, with no lock
operation issued, if the write does not report `BSEC_OK`; (ii)
`BSEC_LOCK_FAIL` if the write reports `BSEC_OK` and the sticky read-lock or the
sticky write-lock fails; (iii) `BSEC_OK` when the write and both locks succeed,
and only then, `BSEC_LOCK_FAIL` being another code than `BSEC_OK`. With the
three status codes distinct, a successful write followed by a failing
write-lock yields a status that is neither `BSEC_OK` nor `BSEC_ERROR`. -/
theorem iwdg_shadow_update_lock_status {σ : Type} (P : PlatformDef) (D : Drivers σ)
    (i flags : Nat) (w : World σ) (otp0 result : Nat) (sr sw : Bool) (s1 s2 s3 s4 : σ)
    (hread : D.bsec_shadow_read_otp P.HW2_OTP w.drv = (P.BSEC_OK, otp0, s1))
    (hwrite : D.bsec_write_otp (otp0 ||| iwdg_requested_bits P i flags) P.HW2_OTP s1
      = (result, s2))
    (hsr : D.bsec_write_sr_lock P.HW2_OTP 1 s2 = (sr, s3))
    (hsw : D.bsec_write_sw_lock P.HW2_OTP 1 s3 = (sw, s4)) :
    (result ≠ P.BSEC_OK →
      (stm32_iwdg_shadow_update P D i flags w).value = some result ∧
      (stm32_iwdg_shadow_update P D i flags w).world.trace =
        w.trace ++ [Event.bsec_shadow_read_otp P.HW2_OTP,
          Event.bsec_write_otp (otp0 ||| iwdg_requested_bits P i flags) P.HW2_OTP]) ∧
    (result = P.BSEC_OK → (sr = false ∨ sw = false) →
      (stm32_iwdg_shadow_update P D i flags w).value = some P.BSEC_LOCK_FAIL) ∧
    (result = P.BSEC_OK → sr = true → sw = true →
      (stm32_iwdg_shadow_update P D i flags w).value = some P.BSEC_OK) ∧
    (P.BSEC_LOCK_FAIL ≠ P.BSEC_OK →
      (stm32_iwdg_shadow_update P D i flags w).value = some P.BSEC_OK →
      (result = P.BSEC_OK ∧ sr = true ∧ sw = true)) ∧
    (P.BSEC_LOCK_FAIL ≠ P.BSEC_OK → P.BSEC_LOCK_FAIL ≠ P.BSEC_ERROR →
      result = P.BSEC_OK → sr = true → sw = false →
      (stm32_iwdg_shadow_update P D i flags w).value ≠ some P.BSEC_OK ∧
      (stm32_iwdg_shadow_update P D i flags w).value ≠ some P.BSEC_ERROR) := by
  rw [iwdg_shadow_update_run P D i flags w P.BSEC_OK otp0 result sr sw s1 s2 s3 s4 hread hwrite
    hsr hsw]
  by_cases h1 : result = P.BSEC_OK
  · cases sr <;> cases sw <;>
      simp +contextual [h1, Exec.value, Exec.world, World.call]
  · simp [h1, Exec.value, Exec.world, World.call]

/-- Witness for C6: the write succeeds, the sticky read-lock succeeds and the
sticky write-lock fails; the status is `BSEC_LOCK_FAIL`, neither `BSEC_OK` nor
`BSEC_ERROR`. -/
theorem iwdg_shadow_update_lock_status_witness :
    (stm32_iwdg_shadow_update stm32mp1_def (mockDrivers 0) 1 6
        (World.boot { mockAll 0 with sw_lock_ok := false } 0)).value = some 0xFFFFFFFA ∧
    (stm32_iwdg_shadow_update stm32mp1_def (mockDrivers 0) 1 6
        (World.boot { mockAll 0 with sw_lock_ok := false } 0)).value ≠ some 0 ∧
    (stm32_iwdg_shadow_update stm32mp1_def (mockDrivers 0) 1 6
        (World.boot { mockAll 0 with sw_lock_ok := false } 0)).value ≠ some 0xFFFFFFFF :=
  ⟨(iwdg_shadow_update_lock_status stm32mp1_def (mockDrivers 0) 1 6
      (World.boot { mockAll 0 with sw_lock_ok := false } 0) 0 0 true false _ _ _ _
      rfl rfl rfl rfl).2.1 rfl (Or.inr rfl),
   (iwdg_shadow_update_lock_status stm32mp1_def (mockDrivers 0) 1 6
      (World.boot { mockAll 0 with sw_lock_ok := false } 0) 0 0 true false _ _ _ _
      rfl rfl rfl rfl).2.2.2.2 (by decide) (by decide) rfl rfl rfl⟩

/-! ### Watchdog fuse decode -/

/-- For a position inside the word, `BIT` is the power of two. -/
theorem BIT_u32_eq (n : Nat) (hn : n < 32) : BIT (u32 n) = 2 ^ n := by
  have h1 : u32 n = n := Nat.mod_eq_of_lt (by omega)
  have h2 : 2 ^ n < 2 ^ 32 := Nat.pow_lt_pow_right (by decide) hn
  rw [h1]
  unfold BIT u32
  rw [Nat.one_shiftLeft, Nat.mod_eq_of_lt h2]

/-- Masking with `BIT` tests the bit at that position. -/
theorem and_BIT_ne_zero (v n : Nat) (hn : n < 32) :
    (v &&& BIT (u32 n) ≠ 0) ↔ v.testBit n = true := by
  rw [BIT_u32_eq n hn, Nat.and_two_pow]
  cases v.testBit n <;> simp

/-- Claim C9. Watchdog fuse decode: for every HW2 word `v` and instance `i`
with `i + HW2_OTP_IWDG_FZ_STANDBY_POS < 32` (the standby base being the
highest of the three bit bases), when the fuse accesses succeed
`stm32_iwdg_get_otp_config` returns exactly the OR of `IWDG_HW_ENABLED` if bit
`i + HW2_OTP_IWDG_HW_POS` of `v` is set, `IWDG_DISABLE_ON_STOP` if bit
`i + HW2_OTP_IWDG_FZ_STOP_POS` is set and `IWDG_DISABLE_ON_STANDBY` if bit
`i + HW2_OTP_IWDG_FZ_STANDBY_POS` is set; when the shadow (in BL2) or the read
fails it panics and returns no value. -/
theorem iwdg_get_otp_config_decode {σ : Type} (P : PlatformDef) (D : Drivers σ)
    (i : Nat) (w : World σ) (st0 st1 v : Nat) (s0 s1 : σ)
    (hi : i + P.HW2_OTP_IWDG_FZ_STANDBY_POS < 32)
    (hhw : P.HW2_OTP_IWDG_HW_POS ≤ P.HW2_OTP_IWDG_FZ_STANDBY_POS)
    (hstop : P.HW2_OTP_IWDG_FZ_STOP_POS ≤ P.HW2_OTP_IWDG_FZ_STANDBY_POS)
    (hshadow : D.bsec_shadow_register P.HW2_OTP w.drv = (st0, s0))
    (hread : D.bsec_read_otp P.HW2_OTP (if P.IMAGE_BL2 = true then s0 else w.drv)
      = (st1, v, s1)) :
    (((P.IMAGE_BL2 = true ∧ st0 ≠ P.BSEC_OK) ∨ st1 ≠ P.BSEC_OK) →
      (stm32_iwdg_get_otp_config P D i w).panicked = true ∧
      (stm32_iwdg_get_otp_config P D i w).value = none) ∧
    ((P.IMAGE_BL2 = true → st0 = P.BSEC_OK) → st1 = P.BSEC_OK →
      (stm32_iwdg_get_otp_config P D i w).value = some (
        (if v.testBit (i + P.HW2_OTP_IWDG_HW_POS) then P.IWDG_HW_ENABLED else 0) |||
        (if v.testBit (i + P.HW2_OTP_IWDG_FZ_STOP_POS) then P.IWDG_DISABLE_ON_STOP else 0) |||
        (if v.testBit (i + P.HW2_OTP_IWDG_FZ_STANDBY_POS) then P.IWDG_DISABLE_ON_STANDBY
          else 0))) := by
  have b1 := and_BIT_ne_zero v (i + P.HW2_OTP_IWDG_HW_POS) (by omega)
  have b2 := and_BIT_ne_zero v (i + P.HW2_OTP_IWDG_FZ_STOP_POS) (by omega)
  have b3 := and_BIT_ne_zero v (i + P.HW2_OTP_IWDG_FZ_STANDBY_POS) hi
  unfold stm32_iwdg_get_otp_config
  cases hbl : P.IMAGE_BL2
  · simp only [hbl, Bool.false_eq_true, if_false] at hread
    simp only [Bool.false_eq_true, if_false, hread, false_and, false_or, false_implies,
      true_implies]
    by_cases h1 : st1 = P.BSEC_OK
    · simp only [h1, ne_eq, not_true_eq_false, if_false, false_implies, true_and, Exec.value,
        true_implies, b1, b2, b3, Option.some.injEq]
      cases v.testBit (i + P.HW2_OTP_IWDG_HW_POS) <;>
      cases v.testBit (i + P.HW2_OTP_IWDG_FZ_STOP_POS) <;>
      cases v.testBit (i + P.HW2_OTP_IWDG_FZ_STANDBY_POS) <;> simp
    · simp [h1, Exec.value, Exec.panicked]
  · simp only [hbl, if_true] at hread
    simp only [if_true, hshadow, true_and, true_implies]
    by_cases h0 : st0 = P.BSEC_OK
    · have e : (w.call (Event.bsec_shadow_register P.HW2_OTP) s0).drv = s0 := rfl
      simp only [h0, ne_eq, not_true_eq_false, if_false, e, hread, false_or, true_implies]
      by_cases h1 : st1 = P.BSEC_OK
      · simp only [h1, not_true_eq_false, if_false, false_implies, true_and, Exec.value,
          true_implies, b1, b2, b3, Option.some.injEq]
        cases v.testBit (i + P.HW2_OTP_IWDG_HW_POS) <;>
        cases v.testBit (i + P.HW2_OTP_IWDG_FZ_STOP_POS) <;>
        cases v.testBit (i + P.HW2_OTP_IWDG_FZ_STANDBY_POS) <;> simp
      · simp [h1, Exec.value, Exec.panicked]
    · simp [h0, Exec.value, Exec.panicked]

/-- Witness for C9: the word 0x28 (bits 3 and 5) decodes for instance 0 to
hardware-enabled and disable-on-stop. -/
theorem iwdg_get_otp_config_decode_witness :
    (stm32_iwdg_get_otp_config stm32mp1_def (mockDrivers 0) 0
      (World.boot (mockAll 0x28) 0)).value = some 3 :=
  (iwdg_get_otp_config_decode stm32mp1_def (mockDrivers 0) 0 (World.boot (mockAll 0x28) 0)
    0 0 0x28 _ _ (by decide) (by decide) (by decide) rfl rfl).2 (fun _ => rfl) rfl

/-! ### Board identifier -/

/-- Shifting right distributes over a bitwise AND. -/
theorem shiftRight_and (a b s : Nat) : (a &&& b) >>> s = (a >>> s) &&& (b >>> s) := by
  apply Nat.eq_of_testBit_eq
  intro k
  simp only [Nat.testBit_shiftRight, Nat.testBit_and]

/-- A field cut out by a mask whose shifted value is `2 ^ n - 1` is a quotient
and remainder. -/
theorem field_eq_div_mod (id mask s n : Nat) (hm : mask >>> s = 2 ^ n - 1) :
    (id &&& mask) >>> s = id / 2 ^ s % 2 ^ n := by
  rw [shiftRight_and, hm, Nat.and_pow_two_sub_one_eq_mod, Nat.shiftRight_eq_div_pow]

/-- The five board-identifier fields as quotients and remainders. -/
theorem board_id_fields (id : Nat) :
    BOARD_ID2NB id = id / 2 ^ 16 % 2 ^ 16 ∧
    BOARD_ID2VARCPN id = id / 2 ^ 12 % 2 ^ 4 ∧
    BOARD_ID2REV id = id / 2 ^ 8 % 2 ^ 4 ∧
    BOARD_ID2VARFG id = id / 2 ^ 4 % 2 ^ 4 ∧
    BOARD_ID2BOM id = id % 2 ^ 4 := by
  refine ⟨field_eq_div_mod id _ 16 16 (by decide), field_eq_div_mod id _ 12 4 (by decide),
    field_eq_div_mod id _ 8 4 (by decide), field_eq_div_mod id _ 4 4 (by decide), ?_⟩
  have h : BOARD_ID_BOM_MASK = 2 ^ 4 - 1 := by decide
  unfold BOARD_ID2BOM
  rw [h, Nat.and_pow_two_sub_one_eq_mod]

/-- Run of `stm32mp_print_boardinfo` once the device tree has given the fuse
index of the board identifier. -/
theorem print_boardinfo_run {σ : Type} (P : PlatformDef) (D : Drivers σ) (w : World σ)
    (cell st board_id : Nat) (s : σ)
    (haddr : D.fdt_get_address w.drv ≠ 0)
    (hnode : 0 ≤ D.fdt_node_offset_by_compatible w.drv)
    (hsub : 0 < D.fdt_subnode_offset w.drv (D.fdt_node_offset_by_compatible w.drv))
    (hprop : D.fdt_getprop w.drv
      (D.fdt_subnode_offset w.drv (D.fdt_node_offset_by_compatible w.drv)) = some cell)
    (hread : D.bsec_shadow_read_otp (cell / 4) w.drv = (st, board_id, s)) :
    stm32mp_print_boardinfo P D w =
      if st ≠ P.BSEC_OK then
        Exec.ret () ((w.call (Event.bsec_shadow_read_otp (cell / 4)) s).emit
          (Event.log_error "BSEC: PART_NUMBER_OTP Error\n"))
      else if board_id ≠ 0 then
        Exec.ret () ((w.call (Event.bsec_shadow_read_otp (cell / 4)) s).emit
          (Event.notice_board (BOARD_ID2NB board_id) (BOARD_ID2VARCPN board_id)
            (BOARD_ID2VARFG board_id)
            (u32 (u32 (BOARD_ID2REV board_id + (2 ^ 32 - 1)) + 65) % 256)
            (BOARD_ID2BOM board_id)))
      else
        Exec.ret () (w.call (Event.bsec_shadow_read_otp (cell / 4)) s) := by
  unfold stm32mp_print_boardinfo
  simp only [haddr, if_false, not_lt.mpr hnode, not_le.mpr hsub, hprop, hread]

/-- Claim C7. Board-id decode: for every board-id word the five fields are the
bit ranges 31:16, 15:12, 11:8, 7:4 and 3:0, and, once the device tree has
given the fuse index, `stm32mp_print_boardinfo` returns and reports a board
line if and only if the fuse read succeeded and the word is not zero; the line
carries the decoded fields. The word 0x00010234 decodes to board number 1,
variant-cpn 0, revision field 2 (letter B), variant-fg 3, bom 4. -/
theorem board_id_decode {σ : Type} (P : PlatformDef) (D : Drivers σ) (w : World σ)
    (cell st board_id : Nat) (s : σ)
    (haddr : D.fdt_get_address w.drv ≠ 0)
    (hnode : 0 ≤ D.fdt_node_offset_by_compatible w.drv)
    (hsub : 0 < D.fdt_subnode_offset w.drv (D.fdt_node_offset_by_compatible w.drv))
    (hprop : D.fdt_getprop w.drv
      (D.fdt_subnode_offset w.drv (D.fdt_node_offset_by_compatible w.drv)) = some cell)
    (hread : D.bsec_shadow_read_otp (cell / 4) w.drv = (st, board_id, s)) :
    (BOARD_ID2NB board_id = board_id / 2 ^ 16 % 2 ^ 16 ∧
      BOARD_ID2VARCPN board_id = board_id / 2 ^ 12 % 2 ^ 4 ∧
      BOARD_ID2REV board_id = board_id / 2 ^ 8 % 2 ^ 4 ∧
      BOARD_ID2VARFG board_id = board_id / 2 ^ 4 % 2 ^ 4 ∧
      BOARD_ID2BOM board_id = board_id % 2 ^ 4) ∧
    (stm32mp_print_boardinfo P D w).panicked = false ∧
    (boardLines (stm32mp_print_boardinfo P D w).world.trace = boardLines w.trace + 1 ↔
      (st = P.BSEC_OK ∧ board_id ≠ 0)) ∧
    (¬ (st = P.BSEC_OK ∧ board_id ≠ 0) →
      boardLines (stm32mp_print_boardinfo P D w).world.trace = boardLines w.trace) ∧
    (st = P.BSEC_OK → board_id ≠ 0 →
      (stm32mp_print_boardinfo P D w).world.trace =
        w.trace ++ [Event.bsec_shadow_read_otp (cell / 4),
          Event.notice_board (BOARD_ID2NB board_id) (BOARD_ID2VARCPN board_id)
            (BOARD_ID2VARFG board_id)
            (u32 (u32 (BOARD_ID2REV board_id + (2 ^ 32 - 1)) + 65) % 256)
            (BOARD_ID2BOM board_id)]) ∧
    (BOARD_ID2NB 0x00010234 = 1 ∧ BOARD_ID2VARCPN 0x00010234 = 0 ∧
      BOARD_ID2REV 0x00010234 = 2 ∧
      u32 (u32 (BOARD_ID2REV 0x00010234 + (2 ^ 32 - 1)) + 65) % 256 = ('B').toNat ∧
      BOARD_ID2VARFG 0x00010234 = 3 ∧ BOARD_ID2BOM 0x00010234 = 4) := by
  refine ⟨board_id_fields board_id, ?_, ?_, ?_, ?_, by decide⟩
  all_goals rw [print_boardinfo_run P D w cell st board_id s haddr hnode hsub hprop hread]
  all_goals by_cases h0 : st = P.BSEC_OK <;> by_cases h1 : board_id = 0 <;>
    simp [h0, h1, Exec.panicked, Exec.world, World.call, World.emit, boardLines,
      List.countP_append, List.countP_cons, Event.isBoardLine]

/-- Witness for C7: the scripted board with fuse word 0x00010234 prints one
line, board MB0001 Var0.3 Rev.B-04; the fuse is read at index 0xEC / 4. -/
theorem board_id_decode_witness :
    (stm32mp_print_boardinfo stm32mp1_def (mockDrivers 0)
        (World.boot (mockAll 0x00010234) 0)).world.trace =
      [Event.bsec_shadow_read_otp 59, Event.notice_board 1 0 3 66 4] :=
  (board_id_decode stm32mp1_def (mockDrivers 0) (World.boot (mockAll 0x00010234) 0)
    0xEC 0 0x00010234 _ (by decide) (by decide) (by decide) rfl rfl).2.2.2.2.1 rfl (by decide)

/-! ### SoC name -/

/-- A conditional between two lists of the same length has that length. -/
theorem ite_length {c : Prop} [Decidable c] (a b : List Char) (n : Nat)
    (ha : a.length = n) (hb : b.length = n) : (if c then a else b).length = n := by
  split <;> assumption

/-- Every part tag has four characters. -/
theorem soc_name_cpu_s_length (P : PlatformDef) (pn : Nat) :
    (soc_name_cpu_s P pn).length = 4 := by
  unfold soc_name_cpu_s
  repeat (first | rfl | apply ite_length)

/-- Every package tag has two characters. -/
theorem soc_name_pkg_length (P : PlatformDef) (pkg : Nat) :
    (soc_name_pkg P pkg).length = 2 := by
  unfold soc_name_pkg
  repeat (first | rfl | apply ite_length)

/-- Every revision tag has one character. -/
theorem soc_name_cpu_r_length (P : PlatformDef) (ver : Nat) :
    (soc_name_cpu_r P ver).length = 1 := by
  unfold soc_name_cpu_r
  repeat (first | rfl | apply ite_length)

/-- A part number outside the known ones gets the placeholder. -/
theorem soc_name_cpu_s_unknown (P : PlatformDef) (pn : Nat)
    (h : pn ∉ known_part_numbers P) : soc_name_cpu_s P pn = "????".toList := by
  simp only [known_part_numbers, List.mem_cons, List.mem_singleton, List.not_mem_nil,
    or_false, not_or] at h
  obtain ⟨h1, h2, h3, h4, h5, h6, h7, h8, h9, h10, h11, h12⟩ := h
  simp only [soc_name_cpu_s, h1, h2, h3, h4, h5, h6, h7, h8, h9, h10, h11, h12, if_false]

/-- A package outside the known ones gets the placeholder. -/
theorem soc_name_pkg_unknown (P : PlatformDef) (pkg : Nat)
    (h : pkg ∉ known_packages P) : soc_name_pkg P pkg = "??".toList := by
  simp only [known_packages, List.mem_cons, List.mem_singleton, List.not_mem_nil,
    or_false, not_or] at h
  obtain ⟨h1, h2, h3, h4⟩ := h
  simp only [soc_name_pkg, h1, h2, h3, h4, if_false]

/-- A chip version outside the known ones gets the placeholder. -/
theorem soc_name_cpu_r_unknown (P : PlatformDef) (ver : Nat)
    (h : ver ∉ known_versions P) : soc_name_cpu_r P ver = "?".toList := by
  simp only [known_versions, List.mem_cons, List.mem_singleton, List.not_mem_nil,
    or_false, not_or] at h
  obtain ⟨h1, h2⟩ := h
  simp only [soc_name_cpu_r, h1, h2, if_false]

/-- With a buffer of at least 20 bytes the formatted name is stored whole. -/
theorem snprintf_soc_name_fits (P : PlatformDef) (size pn pkg ver : Nat) (name : List Char)
    (hsize : 20 ≤ size) :
    snprintf_soc_name size name (soc_name_cpu_s P pn) (soc_name_pkg P pkg)
        (soc_name_cpu_r P ver) =
      "STM32MP".toList ++ soc_name_cpu_s P pn ++ soc_name_pkg P pkg ++ " Rev.".toList ++
        soc_name_cpu_r P ver := by
  unfold snprintf_soc_name
  have h0 : size ≠ 0 := by omega
  rw [if_neg h0]
  apply List.take_of_length_le
  simp only [List.length_append, soc_name_cpu_s_length, soc_name_pkg_length,
    soc_name_cpu_r_length]
  have h7 : "STM32MP".toList.length = 7 := rfl
  have h5 : " Rev.".toList.length = 5 := rfl
  rw [h7, h5]
  omega

/-- Claim C10. SoC name placeholders: when the part number, the package and
the chip version have been obtained (the fuse reads succeeded) and the buffer
has its 20 bytes, `stm32mp_get_soc_name` returns the template
"STM32MP%s%s Rev.%s" filled with the three tags; a part number outside the
twelve known ones gives "????", a package outside the four known ones gives
"??", a chip version other than REV_B and REV_Z gives "?", each independently
of the other two, and all three together give "STM32MP?????? Rev.?". -/
theorem soc_name_placeholders {σ : Type} (P : PlatformDef) (D : Drivers σ)
    (name : List Char) (w w1 w2 w3 : World σ) (pn pkg ver : Nat)
    (hsize : 20 ≤ P.STM32_SOC_NAME_SIZE)
    (hpn : get_part_number P D w = Exec.ret pn w1)
    (hpkg : get_cpu_package P D w1 = Exec.ret pkg w2)
    (hver : stm32mp_get_chip_version D w2 = (ver, w3)) :
    stm32mp_get_soc_name P D name w =
      Exec.ret ("STM32MP".toList ++ soc_name_cpu_s P pn ++ soc_name_pkg P pkg ++
        " Rev.".toList ++ soc_name_cpu_r P ver) w3 ∧
    (pn ∉ known_part_numbers P → soc_name_cpu_s P pn = "????".toList) ∧
    (pkg ∉ known_packages P → soc_name_pkg P pkg = "??".toList) ∧
    (ver ∉ known_versions P → soc_name_cpu_r P ver = "?".toList) ∧
    (pn ∉ known_part_numbers P → pkg ∉ known_packages P → ver ∉ known_versions P →
      stm32mp_get_soc_name P D name w = Exec.ret "STM32MP?????? Rev.?".toList w3) := by
  have hrun : stm32mp_get_soc_name P D name w =
      Exec.ret ("STM32MP".toList ++ soc_name_cpu_s P pn ++ soc_name_pkg P pkg ++
        " Rev.".toList ++ soc_name_cpu_r P ver) w3 := by
    unfold stm32mp_get_soc_name
    simp only [hpn, hpkg, hver]
    rw [snprintf_soc_name_fits P _ pn pkg ver name hsize]
  refine ⟨hrun, soc_name_cpu_s_unknown P pn, soc_name_pkg_unknown P pkg,
    soc_name_cpu_r_unknown P ver, ?_⟩
  intro h1 h2 h3
  rw [hrun, soc_name_cpu_s_unknown P pn h1, soc_name_pkg_unknown P pkg h2,
    soc_name_cpu_r_unknown P ver h3]
  rfl

/-- Witness for C10: fuse words 0xFF (part 0x050000FF, package field 0) and a
debug-register reader that fails (chip version 0) give the all-placeholder
name. -/
theorem soc_name_placeholders_witness :
    (stm32mp_get_soc_name stm32mp1_def (mockDrivers 0) []
      (World.boot { mockAll 0xFF with chip_version := (-1, 0) } 0)).value =
      some "STM32MP?????? Rev.?".toList :=
  congrArg Exec.value
    ((soc_name_placeholders stm32mp1_def (mockDrivers 0) []
      (World.boot { mockAll 0xFF with chip_version := (-1, 0) } 0) _ _ _
      0x050000FF 0 0 (by decide) rfl rfl rfl).2.2.2.2 (by decide) (by decide) (by decide))

/-! ### Backup-register clock bracketing -/

/-- Claim C11. Backup-register clock bracketing: every run of
`stm32_save_boot_interface` adds to the trace exactly the enable of the RTCAPB
clock, the one register operation on backup register 20 (the read and the
write-back of `mmio_clrsetbits_32`) and the disable of the clock; every run of
`stm32_get_boot_interface` adds nothing when the cache is set and otherwise
exactly enable, one read of backup register 20, disable. In both, every
register access happens with the clock enabled and the call issues as many
disables as enables. -/
theorem backup_register_clock_bracketing {σ : Type} (P : PlatformDef) (interface inst : Nat)
    (w : World σ) :
    (stm32_save_boot_interface P interface inst w).trace =
      w.trace ++ [Event.clk_enable P.RTCAPB,
        Event.mmio_read_32 (P.tamp_bkpr TAMP_BOOT_MODE_BACKUP_REG_ID),
        Event.mmio_write_32 (P.tamp_bkpr TAMP_BOOT_MODE_BACKUP_REG_ID)
          ((w.mem (P.tamp_bkpr TAMP_BOOT_MODE_BACKUP_REG_ID) &&&
              not32 TAMP_BOOT_MODE_ITF_MASK) |||
            u32 ((u32 (interface <<< 4) ||| (inst &&& 0xF)) <<< TAMP_BOOT_MODE_ITF_SHIFT)),
        Event.clk_disable P.RTCAPB] ∧
    (stm32_get_boot_interface P w).2.trace =
      w.trace ++ (if w.itf = 0 then
        [Event.clk_enable P.RTCAPB,
          Event.mmio_read_32 (P.tamp_bkpr TAMP_BOOT_MODE_BACKUP_REG_ID),
          Event.clk_disable P.RTCAPB]
        else []) ∧
    clockBracketed P.RTCAPB 0
      ((stm32_save_boot_interface P interface inst w).trace.drop w.trace.length) = true ∧
    clockBracketed P.RTCAPB 0
      ((stm32_get_boot_interface P w).2.trace.drop w.trace.length) = true ∧
    clkEnables P.RTCAPB (stm32_save_boot_interface P interface inst w).trace =
      clkEnables P.RTCAPB w.trace + 1 ∧
    clkDisables P.RTCAPB (stm32_save_boot_interface P interface inst w).trace =
      clkDisables P.RTCAPB w.trace + 1 ∧
    clkEnables P.RTCAPB (stm32_get_boot_interface P w).2.trace =
      clkEnables P.RTCAPB w.trace + (if w.itf = 0 then 1 else 0) ∧
    clkDisables P.RTCAPB (stm32_get_boot_interface P w).2.trace =
      clkDisables P.RTCAPB w.trace + (if w.itf = 0 then 1 else 0) := by
  have hs : (stm32_save_boot_interface P interface inst w).trace =
      w.trace ++ [Event.clk_enable P.RTCAPB,
        Event.mmio_read_32 (P.tamp_bkpr TAMP_BOOT_MODE_BACKUP_REG_ID),
        Event.mmio_write_32 (P.tamp_bkpr TAMP_BOOT_MODE_BACKUP_REG_ID)
          ((w.mem (P.tamp_bkpr TAMP_BOOT_MODE_BACKUP_REG_ID) &&&
              not32 TAMP_BOOT_MODE_ITF_MASK) |||
            u32 ((u32 (interface <<< 4) ||| (inst &&& 0xF)) <<< TAMP_BOOT_MODE_ITF_SHIFT)),
        Event.clk_disable P.RTCAPB] := by
    simp [stm32_save_boot_interface, clk_enable, clk_disable, mmio_clrsetbits_32,
      mmio_read_32, mmio_write_32, World.emit]
  have hg : (stm32_get_boot_interface P w).2.trace =
      w.trace ++ (if w.itf = 0 then
        [Event.clk_enable P.RTCAPB,
          Event.mmio_read_32 (P.tamp_bkpr TAMP_BOOT_MODE_BACKUP_REG_ID),
          Event.clk_disable P.RTCAPB]
        else []) := by
    by_cases hc : w.itf = 0 <;>
      simp [stm32_get_boot_interface, clk_enable, clk_disable, mmio_read_32, World.emit, hc]
  refine ⟨hs, hg, ?_, ?_, ?_, ?_, ?_, ?_⟩
  · rw [hs, List.drop_left]; simp [clockBracketed]
  · rw [hg, List.drop_left]; by_cases hc : w.itf = 0 <;> simp [clockBracketed, hc]
  · rw [hs]; simp [clkEnables, List.count_append, List.count_cons]
  · rw [hs]; simp [clkDisables, List.count_append, List.count_cons]
  · rw [hg]; by_cases hc : w.itf = 0 <;>
      simp [clkEnables, List.count_append, List.count_cons, hc]
  · rw [hg]; by_cases hc : w.itf = 0 <;>
      simp [clkDisables, List.count_append, List.count_cons, hc]

/-! ### Frame of the boot-interface save -/

/-- The value OR-ed in by `stm32_save_boot_interface` stays inside the
boot-mode field when the interface is below 16, whatever the instance. -/
theorem save_value_inside_field (interface inst : Nat) (hi : interface < 16) :
    u32 ((u32 (interface <<< 4) ||| (inst &&& 0xF)) <<< TAMP_BOOT_MODE_ITF_SHIFT) &&&
      not32 TAMP_BOOT_MODE_ITF_MASK = 0 := by
  have hm : inst &&& 0xF = inst % 16 := by
    have := Nat.and_pow_two_sub_one_eq_mod inst 4
    norm_num at this
    exact this
  rw [hm]
  have hk : inst % 16 < 16 := Nat.mod_lt _ (by decide)
  generalize inst % 16 = k at hk
  interval_cases interface <;> interval_cases k <;> rfl

/-- For an interface below 16, `stm32_save_boot_interface` leaves the bits of
the backup register outside the boot-mode field, and every other register, as
they were. -/
theorem save_boot_interface_frame_small {σ : Type} (P : PlatformDef)
    (interface inst : Nat) (w : World σ) (hi : interface < 16) :
    (stm32_save_boot_interface P interface inst w).mem
        (P.tamp_bkpr TAMP_BOOT_MODE_BACKUP_REG_ID) &&& not32 TAMP_BOOT_MODE_ITF_MASK =
      w.mem (P.tamp_bkpr TAMP_BOOT_MODE_BACKUP_REG_ID) &&& not32 TAMP_BOOT_MODE_ITF_MASK ∧
    ∀ a, a ≠ P.tamp_bkpr TAMP_BOOT_MODE_BACKUP_REG_ID →
      (stm32_save_boot_interface P interface inst w).mem a = w.mem a := by
  constructor
  · simp only [stm32_save_boot_interface, clk_enable, clk_disable, mmio_clrsetbits_32,
      mmio_read_32, mmio_write_32, World.emit, if_true]
    rw [Nat.and_comm, Nat.and_or_distrib_left,
      Nat.and_comm _ (u32 _), save_value_inside_field interface inst hi, Nat.or_zero,
      Nat.and_comm, Nat.and_assoc, Nat.and_self]
  · intro a ha
    simp [stm32_save_boot_interface, clk_enable, clk_disable, mmio_clrsetbits_32,
      mmio_read_32, mmio_write_32, World.emit, ha]

/-- Claim C12 fails on the code: with interface 16 and instance 0 over a
backup register holding 0, `stm32_save_boot_interface` sets bit 16, outside
the boot-mode field (bits 15:8), where the register had none of those bits
set. The instance is masked to its nibble, the interface is not. -/
theorem save_boot_interface_spills_out_of_field :
    (World.boot (mockAll 0) 0 : World Mock).mem
        (stm32mp1_def.tamp_bkpr TAMP_BOOT_MODE_BACKUP_REG_ID) &&&
      not32 TAMP_BOOT_MODE_ITF_MASK = 0 ∧
    (stm32_save_boot_interface stm32mp1_def 16 0 (World.boot (mockAll 0) 0 : World Mock)).mem
        (stm32mp1_def.tamp_bkpr TAMP_BOOT_MODE_BACKUP_REG_ID) &&&
      not32 TAMP_BOOT_MODE_ITF_MASK = 0x10000 := by
  decide

/-! ### Revision letter -/

/-- The revision field has four bits. -/
theorem BOARD_ID2REV_lt (id : Nat) : BOARD_ID2REV id < 16 := by
  rw [(board_id_fields id).2.2.1]
  exact Nat.mod_lt _ (by decide)

/-- Claim C13, as stated, fails: the board-id word 0x00010034 is not zero, so
`stm32mp_print_boardinfo` decodes it, but its revision field is 0 and the
character computed is 64, the one before the letter A. -/
theorem revision_letter_counterexample :
    BOARD_ID2REV 0x00010034 = 0 ∧
    (stm32mp_print_boardinfo stm32mp1_def (mockDrivers 0)
        (World.boot (mockAll 0x00010034) 0)).world.trace =
      [Event.bsec_shadow_read_otp 59, Event.notice_board 1 0 3 64 4] ∧
    64 < ('A').toNat := by
  decide

/-- Claim C13, amended. Whenever `stm32mp_print_boardinfo` decodes a board-id
word whose revision field `BOARD_ID2REV(board_id)` is at least 1, the line it
prints carries the character `(field - 1) + 'A'`, which lies in the range
A to O; the field never exceeds 15. -/
theorem revision_letter_in_range {σ : Type} (P : PlatformDef) (D : Drivers σ) (w : World σ)
    (cell board_id : Nat) (s : σ)
    (haddr : D.fdt_get_address w.drv ≠ 0)
    (hnode : 0 ≤ D.fdt_node_offset_by_compatible w.drv)
    (hsub : 0 < D.fdt_subnode_offset w.drv (D.fdt_node_offset_by_compatible w.drv))
    (hprop : D.fdt_getprop w.drv
      (D.fdt_subnode_offset w.drv (D.fdt_node_offset_by_compatible w.drv)) = some cell)
    (hread : D.bsec_shadow_read_otp (cell / 4) w.drv = (P.BSEC_OK, board_id, s))
    (hrev : 1 ≤ BOARD_ID2REV board_id) :
    (stm32mp_print_boardinfo P D w).world.trace =
      w.trace ++ [Event.bsec_shadow_read_otp (cell / 4),
        Event.notice_board (BOARD_ID2NB board_id) (BOARD_ID2VARCPN board_id)
          (BOARD_ID2VARFG board_id) (BOARD_ID2REV board_id - 1 + ('A').toNat)
          (BOARD_ID2BOM board_id)] ∧
    ('A').toNat ≤ BOARD_ID2REV board_id - 1 + ('A').toNat ∧
    BOARD_ID2REV board_id - 1 + ('A').toNat ≤ ('O').toNat ∧
    BOARD_ID2REV board_id ≤ 15 := by
  have hlt := BOARD_ID2REV_lt board_id
  have hA : ('A').toNat = 65 := rfl
  have hO : ('O').toNat = 79 := rfl
  have hne : board_id ≠ 0 := by
    intro h0
    rw [h0] at hrev
    exact absurd hrev (by decide)
  have hletter : u32 (u32 (BOARD_ID2REV board_id + (2 ^ 32 - 1)) + 65) % 256 =
      BOARD_ID2REV board_id - 1 + 65 := by
    unfold u32
    norm_num
    omega
  rw [print_boardinfo_run P D w cell P.BSEC_OK board_id s haddr hnode hsub hprop hread]
  simp only [ne_eq, not_true_eq_false, if_false, hne, not_false_eq_true, if_true, Exec.world,
    World.call, World.emit, hletter, hA, hO]
  refine ⟨by simp, by omega, by omega, by omega⟩

/-- Witness for the amended C13: the board-id word 0x00010234 has revision
field 2 and prints the letter B. -/
theorem revision_letter_in_range_witness :
    (stm32mp_print_boardinfo stm32mp1_def (mockDrivers 0)
        (World.boot (mockAll 0x00010234) 0)).world.trace =
      [Event.bsec_shadow_read_otp 59, Event.notice_board 1 0 3 ('B').toNat 4] :=
  (revision_letter_in_range stm32mp1_def (mockDrivers 0) (World.boot (mockAll 0x00010234) 0)
    0xEC 0x00010234 _ (by decide) (by decide) (by decide) rfl rfl (by decide)).1

/-! ### Independence of the watchdog instances -/

/-- The bits requested for an instance are only its stop and standby bits. -/
theorem iwdg_requested_bits_testBit (P : PlatformDef) (i flags n : Nat)
    (h5 : i + P.HW2_OTP_IWDG_FZ_STOP_POS < 32)
    (h7 : i + P.HW2_OTP_IWDG_FZ_STANDBY_POS < 32)
    (hn5 : n ≠ i + P.HW2_OTP_IWDG_FZ_STOP_POS)
    (hn7 : n ≠ i + P.HW2_OTP_IWDG_FZ_STANDBY_POS) :
    (iwdg_requested_bits P i flags).testBit n = false := by
  unfold iwdg_requested_bits
  rw [BIT_u32_eq _ h5, BIT_u32_eq _ h7, Nat.testBit_or]
  have e5 : (2 ^ (i + P.HW2_OTP_IWDG_FZ_STOP_POS)).testBit n = false := by
    rw [Nat.testBit_two_pow]; simpa using fun h => hn5 h.symm
  have e7 : (2 ^ (i + P.HW2_OTP_IWDG_FZ_STANDBY_POS)).testBit n = false := by
    rw [Nat.testBit_two_pow]; simpa using fun h => hn7 h.symm
  split <;> split <;> simp [e5, e7]

/-- OR-ing the bits requested for an instance into a word does not change the
test of any other bit. -/
theorem and_BIT_or_requested (P : PlatformDef) (i flags otp n : Nat) (hn : n < 32)
    (h5 : i + P.HW2_OTP_IWDG_FZ_STOP_POS < 32)
    (h7 : i + P.HW2_OTP_IWDG_FZ_STANDBY_POS < 32)
    (hn5 : n ≠ i + P.HW2_OTP_IWDG_FZ_STOP_POS)
    (hn7 : n ≠ i + P.HW2_OTP_IWDG_FZ_STANDBY_POS) :
    ((otp ||| iwdg_requested_bits P i flags) &&& BIT (u32 n) ≠ 0) ↔
      (otp &&& BIT (u32 n) ≠ 0) := by
  rw [and_BIT_ne_zero _ n hn, and_BIT_ne_zero _ n hn, Nat.testBit_or,
    iwdg_requested_bits_testBit P i flags n h5 h7 hn5 hn7, Bool.or_false]

/-- Value of `stm32_iwdg_get_otp_config` when its fuse accesses succeed. -/
theorem iwdg_get_otp_config_value {σ : Type} (P : PlatformDef) (D : Drivers σ)
    (i v : Nat) (w : World σ) (s1 : σ)
    (hsh : P.IMAGE_BL2 = true → (D.bsec_shadow_register P.HW2_OTP w.drv).1 = P.BSEC_OK)
    (hrd : D.bsec_read_otp P.HW2_OTP
      (if P.IMAGE_BL2 = true then (D.bsec_shadow_register P.HW2_OTP w.drv).2 else w.drv)
      = (P.BSEC_OK, v, s1)) :
    (stm32_iwdg_get_otp_config P D i w).value = some (iwdg_decode P i v) := by
  unfold stm32_iwdg_get_otp_config iwdg_decode
  cases hbl : P.IMAGE_BL2
  · simp only [hbl, Bool.false_eq_true, if_false] at hrd
    simp [hrd, Exec.value]
  · simp only [hbl, if_true] at hrd
    have h0 := hsh hbl
    rcases hs : D.bsec_shadow_register P.HW2_OTP w.drv with ⟨st0, s0⟩
    rw [hs] at h0 hrd
    simp only at h0 hrd
    simp [h0, hrd, World.call, Exec.value]

/-- With a successful shadow read, `stm32_iwdg_shadow_update` writes the word
read OR-ed with the requested bits, right after the read. -/
theorem iwdg_shadow_update_writes {σ : Type} (P : PlatformDef) (D : Drivers σ)
    (i flags otp : Nat) (w : World σ) (s0 : σ)
    (hread : D.bsec_shadow_read_otp P.HW2_OTP w.drv = (P.BSEC_OK, otp, s0)) :
    ∃ rest, (stm32_iwdg_shadow_update P D i flags w).world.trace =
      w.trace ++ Event.bsec_shadow_read_otp P.HW2_OTP ::
        Event.bsec_write_otp (otp ||| iwdg_requested_bits P i flags) P.HW2_OTP :: rest := by
  rcases hwrite : D.bsec_write_otp (otp ||| iwdg_requested_bits P i flags) P.HW2_OTP s0
    with ⟨result, s2⟩
  rcases hsr : D.bsec_write_sr_lock P.HW2_OTP 1 s2 with ⟨sr, s3⟩
  rcases hsw : D.bsec_write_sw_lock P.HW2_OTP 1 s3 with ⟨sw, s4⟩
  rw [iwdg_shadow_update_run P D i flags w P.BSEC_OK otp result sr sw s0 s2 s3 s4 hread hwrite
    hsr hsw]
  by_cases h1 : result = P.BSEC_OK
  · cases sr
    · exact ⟨[Event.bsec_write_sr_lock P.HW2_OTP 1], by simp [h1, Exec.world, World.call]⟩
    · cases sw <;>
        exact ⟨[Event.bsec_write_sr_lock P.HW2_OTP 1, Event.bsec_write_sw_lock P.HW2_OTP 1],
          by simp [h1, Exec.world, World.call]⟩
  · exact ⟨[], by simp [h1, Exec.world, World.call]⟩

/-- Claim C14. Watchdog instances do not interfere: with the bit bases
`HW2_OTP_IWDG_HW_POS = 3`, `HW2_OTP_IWDG_FZ_STOP_POS = 5`,
`HW2_OTP_IWDG_FZ_STANDBY_POS = 7` and the instances `IWDG1_INST = 0`,
`IWDG2_INST = 1`, for every HW2 word, every flags value and distinct instances
`i`, `j`: the word written by `stm32_iwdg_shadow_update(i, flags)` is the word
read OR-ed with the requested bits; read back through
`stm32_iwdg_get_otp_config(j)` it gives the same flag set as the word before
the update; and the hardware-enable tests of `i` and of `j` give the same
answer on both words. -/
theorem iwdg_instances_do_not_interfere {σ : Type} (P : PlatformDef) (D : Drivers σ)
    (i j flags otp : Nat) (w0 wa wb : World σ) (s0 sa sb : σ)
    (hHW : P.HW2_OTP_IWDG_HW_POS = 3) (hSTOP : P.HW2_OTP_IWDG_FZ_STOP_POS = 5)
    (hSTBY : P.HW2_OTP_IWDG_FZ_STANDBY_POS = 7)
    (h1 : P.IWDG1_INST = 0) (h2 : P.IWDG2_INST = 1)
    (hi : i = P.IWDG1_INST ∨ i = P.IWDG2_INST) (hj : j = P.IWDG1_INST ∨ j = P.IWDG2_INST)
    (hij : i ≠ j)
    (hread0 : D.bsec_shadow_read_otp P.HW2_OTP w0.drv = (P.BSEC_OK, otp, s0))
    (hsha : P.IMAGE_BL2 = true → (D.bsec_shadow_register P.HW2_OTP wa.drv).1 = P.BSEC_OK)
    (hrda : D.bsec_read_otp P.HW2_OTP
      (if P.IMAGE_BL2 = true then (D.bsec_shadow_register P.HW2_OTP wa.drv).2 else wa.drv)
      = (P.BSEC_OK, otp, sa))
    (hshb : P.IMAGE_BL2 = true → (D.bsec_shadow_register P.HW2_OTP wb.drv).1 = P.BSEC_OK)
    (hrdb : D.bsec_read_otp P.HW2_OTP
      (if P.IMAGE_BL2 = true then (D.bsec_shadow_register P.HW2_OTP wb.drv).2 else wb.drv)
      = (P.BSEC_OK, otp ||| iwdg_requested_bits P i flags, sb)) :
    (∃ rest, (stm32_iwdg_shadow_update P D i flags w0).world.trace =
      w0.trace ++ Event.bsec_shadow_read_otp P.HW2_OTP ::
        Event.bsec_write_otp (otp ||| iwdg_requested_bits P i flags) P.HW2_OTP :: rest) ∧
    (stm32_iwdg_get_otp_config P D j wb).value =
      (stm32_iwdg_get_otp_config P D j wa).value ∧
    (stm32_iwdg_get_otp_config P D j wa).value = some (iwdg_decode P j otp) ∧
    (((otp ||| iwdg_requested_bits P i flags) &&&
        BIT (u32 (i + P.HW2_OTP_IWDG_HW_POS)) ≠ 0) ↔
      (otp &&& BIT (u32 (i + P.HW2_OTP_IWDG_HW_POS)) ≠ 0)) ∧
    (((otp ||| iwdg_requested_bits P i flags) &&&
        BIT (u32 (j + P.HW2_OTP_IWDG_HW_POS)) ≠ 0) ↔
      (otp &&& BIT (u32 (j + P.HW2_OTP_IWDG_HW_POS)) ≠ 0)) := by
  have hi01 : i = 0 ∨ i = 1 := by rw [h1, h2] at hi; exact hi
  have hj01 : j = 0 ∨ j = 1 := by rw [h1, h2] at hj; exact hj
  have e3 := and_BIT_or_requested P i flags otp (j + P.HW2_OTP_IWDG_HW_POS)
    (by omega) (by omega) (by omega) (by omega) (by omega)
  have e5 := and_BIT_or_requested P i flags otp (j + P.HW2_OTP_IWDG_FZ_STOP_POS)
    (by omega) (by omega) (by omega) (by omega) (by omega)
  have e7 := and_BIT_or_requested P i flags otp (j + P.HW2_OTP_IWDG_FZ_STANDBY_POS)
    (by omega) (by omega) (by omega) (by omega) (by omega)
  have ei := and_BIT_or_requested P i flags otp (i + P.HW2_OTP_IWDG_HW_POS)
    (by omega) (by omega) (by omega) (by omega) (by omega)
  have hdec : iwdg_decode P j (otp ||| iwdg_requested_bits P i flags) = iwdg_decode P j otp := by
    unfold iwdg_decode
    simp only [e3, e5, e7]
  refine ⟨iwdg_shadow_update_writes P D i flags otp w0 s0 hread0, ?_,
    iwdg_get_otp_config_value P D j otp wa sa hsha hrda, ei, e3⟩
  rw [iwdg_get_otp_config_value P D j otp wa sa hsha hrda,
    iwdg_get_otp_config_value P D j _ wb sb hshb hrdb, hdec]

/-- Witness for C14: the word 0x10 (hardware enable of instance 1) updated for
instance 0 with both flags becomes 0xB0 and still decodes for instance 1 to
hardware-enabled alone. -/
theorem iwdg_instances_do_not_interfere_witness :
    (stm32_iwdg_get_otp_config stm32mp1_def (mockDrivers 0) 1
        (World.boot (mockAll 0xB0) 0)).value =
      (stm32_iwdg_get_otp_config stm32mp1_def (mockDrivers 0) 1
        (World.boot (mockAll 0x10) 0)).value :=
  (iwdg_instances_do_not_interfere stm32mp1_def (mockDrivers 0) 0 1 6 0x10
    (World.boot (mockAll 0x10) 0) (World.boot (mockAll 0x10) 0) (World.boot (mockAll 0xB0) 0)
    _ _ _ rfl rfl rfl rfl rfl (Or.inl rfl) (Or.inr rfl) (by decide) rfl (fun _ => rfl) rfl
    (fun _ => rfl) rfl).2.1

/-! ### Board-identifier fields as a partition -/

/-- A value shifted left OR-ed with a value that fits below the shift is their
sum. -/
theorem shiftLeft_or_eq_add (a b i : Nat) (hb : b < 2 ^ i) :
    a <<< i ||| b = a * 2 ^ i + b := by
  rw [Nat.shiftLeft_eq, Nat.mul_comm, Nat.mul_add_lt_is_or hb]

/-- Five fields of widths 16, 4, 4, 4, 4 placed side by side: the OR of the
shifted fields is their weighted sum. -/
theorem or_fields_eq_sum (a b c d e : Nat) (hb : b < 16) (hc : c < 16) (hd : d < 16)
    (he : e < 16) :
    (a <<< 16) ||| (b <<< 12) ||| (c <<< 8) ||| (d <<< 4) ||| e =
      a * 2 ^ 16 + b * 2 ^ 12 + c * 2 ^ 8 + d * 2 ^ 4 + e := by
  have h1 : d <<< 4 ||| e = d * 2 ^ 4 + e := by
    exact shiftLeft_or_eq_add _ _ _ (by omega : e < 2 ^ 4)
  have h2 : c <<< 8 ||| (d * 2 ^ 4 + e) = c * 2 ^ 8 + (d * 2 ^ 4 + e) := by
    exact shiftLeft_or_eq_add _ _ _ (by omega : d * 2 ^ 4 + e < 2 ^ 8)
  have h3 : b <<< 12 ||| (c * 2 ^ 8 + (d * 2 ^ 4 + e)) =
      b * 2 ^ 12 + (c * 2 ^ 8 + (d * 2 ^ 4 + e)) := by
    exact shiftLeft_or_eq_add _ _ _ (by omega : c * 2 ^ 8 + (d * 2 ^ 4 + e) < 2 ^ 12)
  have h4 : a <<< 16 ||| (b * 2 ^ 12 + (c * 2 ^ 8 + (d * 2 ^ 4 + e))) =
      a * 2 ^ 16 + (b * 2 ^ 12 + (c * 2 ^ 8 + (d * 2 ^ 4 + e))) := by
    exact shiftLeft_or_eq_add _ _ _
      (by omega : b * 2 ^ 12 + (c * 2 ^ 8 + (d * 2 ^ 4 + e)) < 2 ^ 16)
  rw [Nat.or_assoc, Nat.or_assoc, Nat.or_assoc, h1, h2, h3, h4]
  omega

/-- A 32-bit board-id word is the OR of its five fields put back in place. -/
theorem board_id_rebuild (id : Nat) (h : id < 2 ^ 32) :
    (BOARD_ID2NB id <<< BOARD_ID_BOARD_NB_SHIFT) |||
      (BOARD_ID2VARCPN id <<< BOARD_ID_VARCPN_SHIFT) |||
      (BOARD_ID2REV id <<< BOARD_ID_REVISION_SHIFT) |||
      (BOARD_ID2VARFG id <<< BOARD_ID_VARFG_SHIFT) ||| BOARD_ID2BOM id = id := by
  obtain ⟨f1, f2, f3, f4, f5⟩ := board_id_fields id
  have e16 : BOARD_ID_BOARD_NB_SHIFT = 16 := rfl
  have e12 : BOARD_ID_VARCPN_SHIFT = 12 := rfl
  have e8 : BOARD_ID_REVISION_SHIFT = 8 := rfl
  have e4 : BOARD_ID_VARFG_SHIFT = 4 := rfl
  rw [e16, e12, e8, e4, or_fields_eq_sum _ _ _ _ _ (by rw [f2]; omega) (by rw [f3]; omega)
    (by rw [f4]; omega) (by rw [f5]; omega), f1, f2, f3, f4, f5]
  omega

/-- Claim C15. Board-id fields are a lossless partition of the word: for every
32-bit id the OR of the five fields shifted back to their places is the id,
the board number is below 2^16 and the four other fields below 16; hence two
32-bit board-id words with the same five fields are equal. -/
theorem board_id_fields_partition (id id2 : Nat) (h : id < 2 ^ 32) (h2 : id2 < 2 ^ 32) :
    ((BOARD_ID2NB id <<< 16) ||| (BOARD_ID2VARCPN id <<< 12) ||| (BOARD_ID2REV id <<< 8) |||
      (BOARD_ID2VARFG id <<< 4) ||| BOARD_ID2BOM id = id) ∧
    BOARD_ID2NB id < 2 ^ 16 ∧ BOARD_ID2VARCPN id < 16 ∧ BOARD_ID2REV id < 16 ∧
    BOARD_ID2VARFG id < 16 ∧ BOARD_ID2BOM id < 16 ∧
    (BOARD_ID2NB id = BOARD_ID2NB id2 → BOARD_ID2VARCPN id = BOARD_ID2VARCPN id2 →
      BOARD_ID2REV id = BOARD_ID2REV id2 → BOARD_ID2VARFG id = BOARD_ID2VARFG id2 →
      BOARD_ID2BOM id = BOARD_ID2BOM id2 → id = id2) := by
  obtain ⟨f1, f2, f3, f4, f5⟩ := board_id_fields id
  refine ⟨board_id_rebuild id h, by rw [f1]; omega, by rw [f2]; omega, by rw [f3]; omega,
    by rw [f4]; omega, by rw [f5]; omega, ?_⟩
  intro a b c d e
  have r1 := board_id_rebuild id h
  have r2 := board_id_rebuild id2 h2
  rw [a, b, c, d, e, r2] at r1
  exact r1.symm

/-- Witness for C15: the words 0x00010234 and 0x00010234 rebuilt from its
fields. -/
theorem board_id_fields_partition_witness :
    (BOARD_ID2NB 0x00010234 <<< 16) ||| (BOARD_ID2VARCPN 0x00010234 <<< 12) |||
      (BOARD_ID2REV 0x00010234 <<< 8) ||| (BOARD_ID2VARFG 0x00010234 <<< 4) |||
      BOARD_ID2BOM 0x00010234 = 0x00010234 :=
  (board_id_fields_partition 0x00010234 0x00010234 (by decide) (by decide)).1

/-! ### Size of the SoC name -/

/-- Claim C16. SoC name always fits its buffer: for every part number, package
value and chip version obtained, with `STM32_SOC_NAME_SIZE` equal to 20, the
string produced by `stm32mp_get_soc_name` is "STM32MP", a part tag of 4
characters, a package tag of 2 characters, " Rev." and a revision tag of 1
character, 19 characters in all; with its terminator it fits the buffer and
`snprintf` stores it whole. -/
theorem soc_name_fits_buffer {σ : Type} (P : PlatformDef) (D : Drivers σ)
    (name : List Char) (w w1 w2 w3 : World σ) (pn pkg ver : Nat)
    (hsize : P.STM32_SOC_NAME_SIZE = 20)
    (hpn : get_part_number P D w = Exec.ret pn w1)
    (hpkg : get_cpu_package P D w1 = Exec.ret pkg w2)
    (hver : stm32mp_get_chip_version D w2 = (ver, w3)) :
    stm32mp_get_soc_name P D name w =
      Exec.ret ("STM32MP".toList ++ soc_name_cpu_s P pn ++ soc_name_pkg P pkg ++
        " Rev.".toList ++ soc_name_cpu_r P ver) w3 ∧
    (soc_name_cpu_s P pn).length = 4 ∧ (soc_name_pkg P pkg).length = 2 ∧
    (soc_name_cpu_r P ver).length = 1 ∧
    ("STM32MP".toList ++ soc_name_cpu_s P pn ++ soc_name_pkg P pkg ++
        " Rev.".toList ++ soc_name_cpu_r P ver).length = 19 ∧
    19 + 1 ≤ P.STM32_SOC_NAME_SIZE ∧
    snprintf_soc_name P.STM32_SOC_NAME_SIZE name (soc_name_cpu_s P pn) (soc_name_pkg P pkg)
        (soc_name_cpu_r P ver) =
      "STM32MP".toList ++ soc_name_cpu_s P pn ++ soc_name_pkg P pkg ++ " Rev.".toList ++
        soc_name_cpu_r P ver := by
  have hfit := snprintf_soc_name_fits P P.STM32_SOC_NAME_SIZE pn pkg ver name (by omega)
  have h7 : "STM32MP".toList.length = 7 := rfl
  have h5 : " Rev.".toList.length = 5 := rfl
  refine ⟨?_, soc_name_cpu_s_length P pn, soc_name_pkg_length P pkg,
    soc_name_cpu_r_length P ver, ?_, by omega, hfit⟩
  · unfold stm32mp_get_soc_name
    simp only [hpn, hpkg, hver]
    rw [hfit]
  · simp only [List.length_append, soc_name_cpu_s_length, soc_name_pkg_length,
      soc_name_cpu_r_length, h7, h5]

/-- Witness for C16: part 157C, an unknown package and revision B give a name
of 19 characters. -/
theorem soc_name_fits_buffer_witness :
    (stm32mp_get_soc_name stm32mp1_def (mockDrivers 0) []
      (World.boot (mockAll 0) 0)).value = some "STM32MP157C?? Rev.B".toList :=
  congrArg Exec.value
    (soc_name_fits_buffer stm32mp1_def (mockDrivers 0) [] (World.boot (mockAll 0) 0) _ _ _
      0x05000000 0 0x2000 rfl rfl rfl rfl).1

/-! ### UART address table -/

/-- Claim C17. `get_uart_address` is bounds-safe: for every `instance_nb`
(every 32-bit value in particular) the table is never indexed outside its 8 entries; the result is
0 when `instance_nb` is 0 or above 8 and otherwise the entry at index
`instance_nb - 1`; the base addresses being non-zero, the result is 0 if and
only if `instance_nb` is 0 or above 8. -/
theorem get_uart_address_bounds_safe (P : PlatformDef) (instance_nb : Nat)
    (hbases : ∀ a ∈ stm32mp1_uart_addresses P, a ≠ 0) :
    (∃ a, get_uart_address P instance_nb = some a) ∧
    ((instance_nb = 0 ∨ instance_nb > 8) → get_uart_address P instance_nb = some 0) ∧
    (¬ (instance_nb = 0 ∨ instance_nb > 8) →
      ∃ h : instance_nb - 1 < (stm32mp1_uart_addresses P).length,
        get_uart_address P instance_nb =
          some ((stm32mp1_uart_addresses P).get ⟨instance_nb - 1, h⟩)) ∧
    (get_uart_address P instance_nb = some 0 ↔ (instance_nb = 0 ∨ instance_nb > 8)) := by
  have hlen : (stm32mp1_uart_addresses P).length = 8 := rfl
  have hout : (instance_nb = 0 ∨ instance_nb > 8) → get_uart_address P instance_nb = some 0 := by
    intro h
    unfold get_uart_address
    rw [hlen, if_pos h]
  have hin : ¬ (instance_nb = 0 ∨ instance_nb > 8) →
      ∃ h : instance_nb - 1 < (stm32mp1_uart_addresses P).length,
        get_uart_address P instance_nb =
          some ((stm32mp1_uart_addresses P).get ⟨instance_nb - 1, h⟩) := by
    intro h
    have hidx : u32 (instance_nb + (2 ^ 32 - 1)) = instance_nb - 1 := by
      unfold u32
      norm_num
      omega
    have hb : instance_nb - 1 < (stm32mp1_uart_addresses P).length := by rw [hlen]; omega
    refine ⟨hb, ?_⟩
    have h' : ¬ (instance_nb = 0 ∨ instance_nb > (stm32mp1_uart_addresses P).length) := by
      rw [hlen]; exact h
    unfold get_uart_address
    rw [if_neg h', hidx, List.getElem?_eq_getElem hb]
    rfl
  refine ⟨?_, hout, hin, ?_⟩
  · by_cases h : instance_nb = 0 ∨ instance_nb > 8
    · exact ⟨0, hout h⟩
    · obtain ⟨hb, e⟩ := hin h
      exact ⟨_, e⟩
  · constructor
    · intro h0
      by_contra h
      obtain ⟨hb, e⟩ := hin h
      rw [e] at h0
      exact hbases _ (List.get_mem _ _ _) (Option.some.inj h0)
    · exact hout

/-- Witness for C17: instance 4 is UART4. -/
theorem get_uart_address_bounds_safe_witness :
    get_uart_address stm32mp1_def 4 = some 0x40010000 ∧
    get_uart_address stm32mp1_def 9 = some 0 :=
  ⟨((get_uart_address_bounds_safe stm32mp1_def 4 (by decide)).2.2.1
      (by decide)).2,
   (get_uart_address_bounds_safe stm32mp1_def 9 (by decide)).2.1
      (Or.inr (by decide))⟩

/-! ### UART RX pin table -/

/-- Calls issued by `stm32mp1_deconfigure_uart_pins`: one reset per table
entry, in table order. -/
theorem deconfigure_uart_pins_trace {σ : Type} (w : World σ) :
    (stm32mp1_deconfigure_uart_pins w).trace =
      w.trace ++ gpio_list.map (fun e => Event.set_gpio_reset_cfg e.bank e.pin) := by
  simp [stm32mp1_deconfigure_uart_pins, gpio_list, World.emit]

/-- Claim C18 fails on the code: the fourth entry of `gpio_list`, commented
"UART5_RX: GPIOB4", holds bank 1 and pin 5, so the table differs from its
documentation at that entry (and only there) and
`stm32mp1_deconfigure_uart_pins` resets GPIOB5 where the comment names
GPIOB4. -/
theorem gpio_list_uart5_rx_entry :
    gpio_list[3]? = some { bank := 1, pin := 5 } ∧
    gpio_list_documented[3]? = some { bank := 1, pin := 4 } ∧
    gpio_list ≠ gpio_list_documented ∧
    (∀ k < 7, k ≠ 3 → gpio_list[k]? = gpio_list_documented[k]?) ∧
    (stm32mp1_deconfigure_uart_pins (World.boot (mockAll 0) 0)).trace =
      [Event.set_gpio_reset_cfg 0 3, Event.set_gpio_reset_cfg 1 12,
       Event.set_gpio_reset_cfg 1 2, Event.set_gpio_reset_cfg 1 5,
       Event.set_gpio_reset_cfg 2 7, Event.set_gpio_reset_cfg 5 6,
       Event.set_gpio_reset_cfg 4 0] := by
  decide

end Stm32mp1
